import Mathlib

/-!
Shallow embedding of pitivi/undo/timeline.py: the undo/redo action classes,
the property/keyframe trackers and the parts of the TimelineObserver the
claims are about.

Modelling conventions:
* GObject property values (GValue) are modelled as Int; property maps are
  association lists keyed by strings.
* Object references are modelled either by passing the referenced object
  as explicit state into do/undo (the Python methods mutate the object the
  action holds a reference to), or by a numeric object id when the object
  must be located inside a container.
* `pipeline.commit_timeline()` is a request to the external playback
  engine; it is modelled as a counter of commit requests on the timeline.
* The action log's `push` is modelled by returning the pushed actions.
-/

set_option autoImplicit false

namespace PitiviUndoTimeline

/-- Association-list lookup for string-keyed property maps: first matching key wins,
like Python dict semantics on maps whose keys are unique. -/
def propGet : List (String × Int) → String → Option Int
  | [], _ => none
  | (k, v) :: rest, key => if k = key then some v else propGet rest key

/-- Association-list update: replaces the first occurrence of the key, appends if absent
(Python dict item assignment). -/
def propSet : List (String × Int) → String → Int → List (String × Int)
  | [], key, value => [(key, value)]
  | (k, v) :: rest, key, value =>
    if k = key then (key, value) :: rest else (k, v) :: propSet rest key value

/-- Folding a list of (key, value) assignments into a property map, in order. -/
def applyProps (m : List (String × Int)) (ps : List (String × Int)) : List (String × Int) :=
  ps.foldl (fun acc kv => propSet acc kv.1 kv.2) m

/-- Key list of a property map. -/
def propKeys (m : List (String × Int)) : List String :=
  m.map Prod.fst

/-- Generic Nat-keyed association lookup (Python dict keyed by object identity,
objects modelled by their ids). -/
def assocGet {α : Type} : List (Nat × α) → Nat → Option α
  | [], _ => none
  | (k, v) :: rest, key => if k = key then some v else assocGet rest key

/-- Generic Nat-keyed association update (dict item assignment). -/
def assocSet {α : Type} : List (Nat × α) → Nat → α → List (Nat × α)
  | [], key, value => [(key, value)]
  | (k, v) :: rest, key, value =>
    if k = key then (key, value) :: rest else (k, v) :: assocSet rest key value

/-- Python dict.pop: returns the value and the remaining map, or none (KeyError)
if the key is absent. -/
def assocPop {α : Type} : List (Nat × α) → Nat → Option (α × List (Nat × α))
  | [], _ => none
  | (k, v) :: rest, key =>
    if k = key then some (v, rest)
    else match assocPop rest key with
      | none => none
      | some (w, rest2) => some (w, (k, v) :: rest2)

/-- A GObject parameter specification for a child property: owning type name,
short property name and the WRITABLE flag (the only flag the source inspects). -/
structure PSpec where
  owner_type_name : String
  name : String
  writable : Bool
  deriving DecidableEq, Repr

/-- child_property_name(pspec): "%s::%s" % (pspec.owner_type_name, pspec.name). -/
def child_property_name (pspec : PSpec) : String :=
  pspec.owner_type_name ++ "::" ++ pspec.name

/-- A GES.Asset: identifier plus the child-property specifications (with default
values) of the track elements it instantiates. -/
structure Asset where
  asset_id : String
  pspecs : List (PSpec × Int)
  deriving DecidableEq, Repr

/-- A GES.TrackElement: identity, originating asset, child-property map, active
flag, names of child properties driven by a ControlBinding, and the track it is
attached to (none when not yet attached). -/
structure TrackElement where
  id : Nat
  asset : Asset
  props : List (String × Int)
  active : Bool
  bindings : List String
  track : Option Nat
  deriving DecidableEq, Repr

/-- track_element.list_children_properties(): the declared pspecs (instantiated
elements expose exactly the asset's pspecs). -/
def list_children_properties (el : TrackElement) : List PSpec :=
  el.asset.pspecs.map Prod.fst

/-- track_element.get_child_property(name): returns (success flag, value); the
source always projects out component [1]. -/
def get_child_property (el : TrackElement) (key : String) : Bool × Int :=
  match propGet el.props key with
  | some v => (true, v)
  | none => (false, 0)

/-- track_element.set_child_property(name, value). -/
def set_child_property (el : TrackElement) (key : String) (value : Int) : TrackElement :=
  { el with props := propSet el.props key value }

/-- Sequence of set_child_property calls, one per stored (name, value) pair. -/
def setChildProps (el : TrackElement) (ps : List (String × Int)) : TrackElement :=
  ps.foldl (fun e kv => set_child_property e kv.1 kv.2) el

/-- Child-property map of a freshly instantiated track element: every declared
pspec at its default value. -/
def elemDefaults (a : Asset) : List (String × Int) :=
  a.pspecs.map (fun pd => (child_property_name pd.1, pd.2))

/-- A track element freshly instantiated from an asset (clip.add_asset): declared
properties at defaults, active, no control bindings, not yet attached to a track. -/
def freshElem (a : Asset) (fresh : Nat) : TrackElement :=
  { id := fresh, asset := a, props := elemDefaults a, active := true,
    bindings := [], track := none }

/-- A GES.Clip: identity, name (None until the layer assigns one), scalar
properties (start, duration, in-point, priority) and its track elements. -/
structure Clip where
  id : Nat
  name : Option String
  props : List (String × Int)
  elements : List TrackElement
  deriving DecidableEq, Repr

/-- clip.add_asset(asset): instantiates a fresh track element (fresh is the new
object identity allocated by the model) and appends it to the clip. -/
def clip_add_asset (c : Clip) (a : Asset) (fresh : Nat) : Clip × TrackElement :=
  let el := freshElem a fresh
  ({ c with elements := c.elements ++ [el] }, el)

/-- clip.remove(track_element): removes the referenced element from the clip. -/
def clip_remove (c : Clip) (eid : Nat) : Clip :=
  { c with elements := c.elements.filter (fun e => e.id ≠ eid) }

/-- A GES.Layer: identity, priority, auto-transition flag and its clips. -/
structure Layer where
  id : Nat
  priority : Int
  auto_transition : Bool
  clips : List Clip
  deriving DecidableEq, Repr

/-- Modelled from the spec: GES assigns "a fresh identity-safe name" when a clip
whose name was cleared is added to a layer; the external naming scheme is
modelled as a deterministic function of the layer's current contents. -/
def freshClipName (l : Layer) : String :=
  "clip" ++ toString l.clips.length

/-- layer.add_clip(clip): if the clip's name was cleared the layer assigns a
fresh name; returns the layer and the (renamed) clip object. -/
def layer_add_clip (l : Layer) (c : Clip) : Layer × Clip :=
  let named :=
    match c.name with
    | none => { c with name := some (freshClipName l) }
    | some _ => c
  ({ l with clips := l.clips ++ [named] }, named)

/-- layer.remove_clip(clip): removes the referenced clip from the layer. -/
def layer_remove_clip (l : Layer) (cid : Nat) : Layer :=
  { l with clips := l.clips.filter (fun c => c.id ≠ cid) }

/-- A GES.Timeline: its layers, plus a counter of structural commit requests
(pipeline.commit_timeline() calls) issued to the external playback engine. -/
structure Timeline where
  layers : List Layer
  commits : Nat
  deriving DecidableEq, Repr

/-- timeline.add_layer(layer). -/
def timeline_add_layer (t : Timeline) (l : Layer) : Timeline :=
  { t with layers := t.layers ++ [l] }

/-- timeline.remove_layer(layer): removes the referenced layer. -/
def timeline_remove_layer (t : Timeline) (lid : Nat) : Timeline :=
  { t with layers := t.layers.filter (fun l => l.id ≠ lid) }

/-- pipeline.commit_timeline(): a structural commit request. -/
def commit_timeline (t : Timeline) : Timeline :=
  { t with commits := t.commits + 1 }

/-- A GstControlSource's timed values: timestamp-sorted list of
(timestamp, value) keyframes, as GstTimedValueControlSource stores them. -/
abbrev ControlSource : Type := List (Nat × Int)

/-- control_source.set(timestamp, value): inserts keeping timestamp order, or
overwrites the keyframe at an existing timestamp. -/
def cs_set : ControlSource → Nat → Int → ControlSource
  | [], t, v => [(t, v)]
  | (t1, v1) :: rest, t, v =>
    if t < t1 then (t, v) :: (t1, v1) :: rest
    else if t = t1 then (t, v) :: rest
    else (t1, v1) :: cs_set rest t v

/-- control_source.unset(timestamp): removes the keyframe at the timestamp. -/
def cs_unset (s : ControlSource) (t : Nat) : ControlSource :=
  s.filter (fun kv => kv.1 ≠ t)

/-- Strict timestamp ordering of a control source's keyframe list (the invariant
GstTimedValueControlSource maintains). -/
def csSorted : ControlSource → Bool
  | [] => true
  | [_] => true
  | (t1, _) :: (t2, v2) :: rest =>
    decide (t1 < t2) && csSorted ((t2, v2) :: rest)

/-- Modelled from the spec: pitivi.undo.UndoableAction (pitivi/undo/undo.py is
outside src/) keeps every action in one of three states, pending after
construction; its _done() helper marks the action done and _undone() marks it
undone ("pending→done via do ...; done↔undone via undo/redo"; redo replays do). -/
inductive AStatus
  | pending
  | done
  | undone
  deriving DecidableEq, Repr

/-- A Python exception kind escaping an embedded operation. -/
inductive PyError
  | typeError
  | keyError
  deriving DecidableEq, Repr

/-- One entry per declared pspec passing the filter, in declaration order,
carrying the full child-property name and the element's current value: the
shape of both the discovery loop and the capture comprehensions in the source. -/
def pspecSelect (keep : PSpec → Bool) (el : TrackElement) : List (String × Int) :=
  (list_children_properties el).filterMap (fun p =>
    if keep p then
      some (child_property_name p, (get_child_property el (child_property_name p)).2)
    else none)

/-- TrackElementPropertyChanged action: element reference (by id), property name
and the old/new values. -/
structure TrackElementPropertyChanged where
  track_element : Nat
  property_name : String
  old_value : Int
  new_value : Int
  status : AStatus
  deriving DecidableEq, Repr

/-- TrackElementPropertyChanged.do: set_child_property(name, new_value); _done().
The element passed in is the one the action's track_element field references. -/
def TrackElementPropertyChanged.do_ (a : TrackElementPropertyChanged) (el : TrackElement) :
    TrackElementPropertyChanged × TrackElement :=
  ({ a with status := AStatus.done }, set_child_property el a.property_name a.new_value)

/-- TrackElementPropertyChanged.undo: set_child_property(name, old_value); _undone(). -/
def TrackElementPropertyChanged.undo (a : TrackElementPropertyChanged) (el : TrackElement) :
    TrackElementPropertyChanged × TrackElement :=
  ({ a with status := AStatus.undone }, set_child_property el a.property_name a.old_value)

/-- TrackElementChildPropertyTracker state: _tracked_track_elements (element id →
child-property snapshot), plus the element ids currently holding a
notify::track subscription and a deep-notify subscription. The PROPS_TO_IGNORE
list (pitivi/effects.py is outside src/) is passed as the ignore parameter. -/
structure TrackElementChildPropertyTracker where
  tracked_track_elements : List (Nat × List (String × Int))
  track_subs : List Nat
  deep_notify_subs : List Nat
  deriving DecidableEq, Repr

/-- TrackElementChildPropertyTracker._discoverChildProperties: connect
deep-notify, then snapshot every declared child property whose short name is
not in the ignore list (dict built in declaration order). -/
def TrackElementChildPropertyTracker.discoverChildProperties
    (tr : TrackElementChildPropertyTracker) (ignore : List String) (el : TrackElement) :
    TrackElementChildPropertyTracker :=
  { tr with
    deep_notify_subs := tr.deep_notify_subs ++ [el.id],
    tracked_track_elements := assocSet tr.tracked_track_elements el.id
      (applyProps [] (pspecSelect (fun p => decide (p.name ∉ ignore)) el)) }

/-- TrackElementChildPropertyTracker.addTrackElement: return if already tracked;
if the element has no track yet, subscribe to notify::track and return;
otherwise discover its child properties now. -/
def TrackElementChildPropertyTracker.addTrackElement
    (tr : TrackElementChildPropertyTracker) (ignore : List String) (el : TrackElement) :
    TrackElementChildPropertyTracker :=
  if (assocGet tr.tracked_track_elements el.id).isSome then tr
  else if el.track = none then
    { tr with track_subs := tr.track_subs ++ [el.id] }
  else
    TrackElementChildPropertyTracker.discoverChildProperties tr ignore el

/-- TrackElementChildPropertyTracker._trackElementTrackSetCb: run discovery,
then disconnect this callback from notify::track. -/
def TrackElementChildPropertyTracker.trackElementTrackSetCb
    (tr : TrackElementChildPropertyTracker) (ignore : List String) (el : TrackElement) :
    TrackElementChildPropertyTracker :=
  let tr1 := TrackElementChildPropertyTracker.discoverChildProperties tr ignore el
  { tr1 with track_subs := tr1.track_subs.filter (fun n => n ≠ el.id) }

/-- TrackElementChildPropertyTracker.getPropChangedFromTrackElement: dict lookup,
none models the KeyError for an untracked element. -/
def TrackElementChildPropertyTracker.getPropChangedFromTrackElement
    (tr : TrackElementChildPropertyTracker) (eid : Nat) : Option (List (String × Int)) :=
  assocGet tr.tracked_track_elements eid

/-- TrackElementChildPropertyTracker._propertyChangedCb: if the property has an
active control binding, log and return; otherwise read old value from the
snapshot, new value live, push one TrackElementPropertyChanged and update the
snapshot. none models the KeyError for an untracked element or unknown
property; the pushed actions are returned. -/
def TrackElementChildPropertyTracker.propertyChangedCb
    (tr : TrackElementChildPropertyTracker) (el : TrackElement) (pspec : PSpec) :
    Option (TrackElementChildPropertyTracker × List TrackElementPropertyChanged) :=
  let pspec_name := child_property_name pspec
  if pspec_name ∈ el.bindings then some (tr, [])
  else
    match assocGet tr.tracked_track_elements el.id with
    | none => none
    | some snap =>
      match propGet snap pspec_name with
      | none => none
      | some old_value =>
        let new_value := (get_child_property el pspec_name).2
        let action : TrackElementPropertyChanged :=
          { track_element := el.id, property_name := pspec_name,
            old_value := old_value, new_value := new_value, status := AStatus.pending }
        some ({ tr with tracked_track_elements :=
                  assocSet tr.tracked_track_elements el.id (propSet snap pspec_name new_value) },
              [action])

/-- TrackElementAdded action: reference to the live element (none after undo
deletes it), the element's asset, the captured writable child properties, and
the snapshot retrieved from the properties watcher. -/
structure TrackElementAdded where
  track_element : Option Nat
  asset : Asset
  track_element_props : List (String × Int)
  props_changed : List (String × Int)
  status : AStatus
  deriving DecidableEq, Repr

/-- TrackElementAdded.__init__(clip, track_element, properties_watcher): stores
the element reference and its asset; the captured lists start empty. -/
def TrackElementAdded.init (el : TrackElement) : TrackElementAdded :=
  { track_element := some el.id, asset := el.asset, track_element_props := [],
    props_changed := [], status := AStatus.pending }

/-- TrackElementAdded.do: self.track_element = clip.add_asset(asset); replay the
stored child properties onto the new element (which the clip now holds);
_props_changed = []; _done(). fresh is the identity the model allocates for the
new element. -/
def TrackElementAdded.do_ (a : TrackElementAdded) (c : Clip) (fresh : Nat) :
    TrackElementAdded × Clip :=
  let el := setChildProps (freshElem a.asset fresh) a.track_element_props
  ({ a with track_element := some fresh, props_changed := [], status := AStatus.done },
   { c with elements := c.elements ++ [el] })

/-- TrackElementAdded.undo: capture all writable non-ignored child properties of
the referenced element, remove it from the clip, retrieve the pending
property-change snapshot from the watcher, drop the element reference;
_undone(). none models the failures of dereferencing a missing element or the
watcher's KeyError. -/
def TrackElementAdded.undo (a : TrackElementAdded) (c : Clip) (ignore : List String)
    (watcher : TrackElementChildPropertyTracker) : Option (TrackElementAdded × Clip) :=
  match a.track_element with
  | none => none
  | some eid =>
    match c.elements.find? (fun e => e.id == eid) with
    | none => none
    | some el =>
      let captured := pspecSelect (fun p => p.writable && decide (p.name ∉ ignore)) el
      let c1 := clip_remove c eid
      match TrackElementChildPropertyTracker.getPropChangedFromTrackElement watcher eid with
      | none => none
      | some pc =>
        some ({ a with track_element_props := captured, props_changed := pc,
                       track_element := none, status := AStatus.undone }, c1)

/-- TrackElementRemoved action: same fields as TrackElementAdded, with the
forward and inverse roles swapped. -/
structure TrackElementRemoved where
  track_element : Option Nat
  asset : Asset
  track_element_props : List (String × Int)
  props_changed : List (String × Int)
  status : AStatus
  deriving DecidableEq, Repr

/-- TrackElementRemoved.__init__(clip, track_element, properties_watcher). -/
def TrackElementRemoved.init (el : TrackElement) : TrackElementRemoved :=
  { track_element := some el.id, asset := el.asset, track_element_props := [],
    props_changed := [], status := AStatus.pending }

/-- TrackElementRemoved.do: capture writable non-ignored child properties,
remove the element from the clip, retrieve the watcher snapshot, drop the
reference; _done(). -/
def TrackElementRemoved.do_ (a : TrackElementRemoved) (c : Clip) (ignore : List String)
    (watcher : TrackElementChildPropertyTracker) : Option (TrackElementRemoved × Clip) :=
  match a.track_element with
  | none => none
  | some eid =>
    match c.elements.find? (fun e => e.id == eid) with
    | none => none
    | some el =>
      let captured := pspecSelect (fun p => p.writable && decide (p.name ∉ ignore)) el
      let c1 := clip_remove c eid
      match TrackElementChildPropertyTracker.getPropChangedFromTrackElement watcher eid with
      | none => none
      | some pc =>
        some ({ a with track_element_props := captured, props_changed := pc,
                       track_element := none, status := AStatus.done }, c1)

/-- TrackElementRemoved.undo: reinstantiate a fresh element from the stored
asset, replay the captured properties onto it; _props_changed = []; _undone(). -/
def TrackElementRemoved.undo (a : TrackElementRemoved) (c : Clip) (fresh : Nat) :
    TrackElementRemoved × Clip :=
  let el := setChildProps (freshElem a.asset fresh) a.track_element_props
  ({ a with track_element := some fresh, props_changed := [], status := AStatus.undone },
   { c with elements := c.elements ++ [el] })

/-- KeyframeChangeTracker state: the connected control source (by id), the
timestamp-keyed keyframe snapshot cache (none before connectToObject), the
tracker's three subscriptions on the control source, and the observer's
subscription to the tracker's keyframe-moved signal. -/
structure KeyframeChangeTracker where
  control_source : Option Nat
  keyframes : Option (List (Nat × (Nat × Int)))
  subsValueAdded : Bool
  subsValueRemoved : Bool
  subsValueChanged : Bool
  subsKeyframeMoved : Bool
  deriving DecidableEq, Repr

/-- KeyframeChangeTracker._getKeyframeSnapshot(keyframe) = (timestamp, value). -/
def getKeyframeSnapshot (keyframe : Nat × Int) : Nat × Int :=
  (keyframe.1, keyframe.2)

/-- KeyframeChangeTracker._takeCurrentSnapshot: one dict entry per keyframe of
control_source.get_all(), keyed by timestamp. -/
def takeCurrentSnapshot (cs : ControlSource) : List (Nat × (Nat × Int)) :=
  cs.foldl (fun acc kv => assocSet acc kv.1 (getKeyframeSnapshot kv)) []

/-- KeyframeChangeTracker.connectToObject: remember the source, snapshot its
keyframes, connect value-added, value-removed and value-changed. -/
def KeyframeChangeTracker.connectToObject (tr : KeyframeChangeTracker)
    (csId : Nat) (cs : ControlSource) : KeyframeChangeTracker :=
  { tr with control_source := some csId, keyframes := some (takeCurrentSnapshot cs),
            subsValueAdded := true, subsValueRemoved := true, subsValueChanged := true }

/-- KeyframeChangeTracker.disconnectFromObject: drop the control-source
reference and disconnect _keyframeMovedCb (TypeError when it is not
connected). Nothing else is touched. -/
def KeyframeChangeTracker.disconnectFromObject (tr : KeyframeChangeTracker) :
    Except PyError KeyframeChangeTracker :=
  let tr1 := { tr with control_source := none }
  if tr1.subsValueChanged then Except.ok { tr1 with subsValueChanged := false }
  else Except.error PyError.typeError

/-- KeyframeChangeTracker._keyframeAddedCb: insert the keyframe's snapshot into
the cache (TypeError when the cache is still None). -/
def KeyframeChangeTracker.keyframeAddedCb (tr : KeyframeChangeTracker)
    (keyframe : Nat × Int) : Except PyError KeyframeChangeTracker :=
  match tr.keyframes with
  | none => Except.error PyError.typeError
  | some m =>
    Except.ok { tr with keyframes := some (assocSet m keyframe.1 (getKeyframeSnapshot keyframe)) }

/-- KeyframeChangeTracker._keyframeRemovedCb: delete the keyframe's snapshot
from the cache (TypeError on a None cache, KeyError on a missing timestamp). -/
def KeyframeChangeTracker.keyframeRemovedCb (tr : KeyframeChangeTracker)
    (keyframe : Nat × Int) : Except PyError KeyframeChangeTracker :=
  match tr.keyframes with
  | none => Except.error PyError.typeError
  | some m =>
    match assocPop m keyframe.1 with
    | none => Except.error PyError.keyError
    | some (_, rest) => Except.ok { tr with keyframes := some rest }

/-- KeyframeChangeTracker._keyframeMovedCb: diff the cached snapshot against the
new one, update the cache and emit keyframe-moved carrying (old, new); the
emitted payload is returned. -/
def KeyframeChangeTracker.keyframeMovedCb (tr : KeyframeChangeTracker)
    (keyframe : Nat × Int) :
    Except PyError (KeyframeChangeTracker × ((Nat × Int) × (Nat × Int))) :=
  match tr.keyframes with
  | none => Except.error PyError.typeError
  | some m =>
    match assocGet m keyframe.1 with
    | none => Except.error PyError.keyError
    | some old_snapshot =>
      let new_snapshot := getKeyframeSnapshot keyframe
      Except.ok ({ tr with keyframes := some (assocSet m keyframe.1 new_snapshot) },
                 (old_snapshot, new_snapshot))

/-- python attribute access property_name.replace("-", "_") used by
Clip.set_property in ClipPropertyChanged. -/
def pySetKey (property_name : String) : String :=
  String.replace property_name "-" "_"

/-- ClipPropertyChanged action: property name and old/new values; the clip
passed to do/undo is the one the action references. -/
structure ClipPropertyChanged where
  property_name : String
  old_value : Int
  new_value : Int
  status : AStatus
  deriving DecidableEq, Repr

/-- ClipPropertyChanged.do: clip.set_property(name.replace("-","_"), new_value);
_done(). -/
def ClipPropertyChanged.do_ (a : ClipPropertyChanged) (c : Clip) :
    ClipPropertyChanged × Clip :=
  ({ a with status := AStatus.done },
   { c with props := propSet c.props (pySetKey a.property_name) a.new_value })

/-- ClipPropertyChanged.undo: clip.set_property(name.replace("-","_"), old_value);
_undone(). -/
def ClipPropertyChanged.undo (a : ClipPropertyChanged) (c : Clip) :
    ClipPropertyChanged × Clip :=
  ({ a with status := AStatus.undone },
   { c with props := propSet c.props (pySetKey a.property_name) a.old_value })

/-- ClipAdded action: holds the clip object; the layer (and the commit-request
counter of its timeline's pipeline) is the mutable state of do/undo. -/
structure ClipAdded where
  clip : Clip
  status : AStatus
  deriving DecidableEq, Repr

/-- ClipAdded.do: clip.set_name(None); layer.add_clip(clip) (the layer assigns a
fresh name); commit_timeline(); _done(). The action's clip reference aliases
the clip now held by the layer. -/
def ClipAdded.do_ (a : ClipAdded) (l : Layer) (commits : Nat) :
    ClipAdded × Layer × Nat :=
  let cleared := { a.clip with name := none }
  let added := layer_add_clip l cleared
  ({ a with clip := added.2, status := AStatus.done }, added.1, commits + 1)

/-- ClipAdded.undo: layer.remove_clip(clip); commit_timeline(); _undone(). -/
def ClipAdded.undo (a : ClipAdded) (l : Layer) (commits : Nat) :
    ClipAdded × Layer × Nat :=
  ({ a with status := AStatus.undone }, layer_remove_clip l a.clip.id, commits + 1)

/-- ClipRemoved action: holds the clip object; state as in ClipAdded. -/
structure ClipRemoved where
  clip : Clip
  status : AStatus
  deriving DecidableEq, Repr

/-- ClipRemoved.do: layer.remove_clip(clip); commit_timeline(); _done(). -/
def ClipRemoved.do_ (a : ClipRemoved) (l : Layer) (commits : Nat) :
    ClipRemoved × Layer × Nat :=
  ({ a with status := AStatus.done }, layer_remove_clip l a.clip.id, commits + 1)

/-- ClipRemoved.undo: clip.set_name(None); layer.add_clip(clip);
commit_timeline(); _undone(). -/
def ClipRemoved.undo (a : ClipRemoved) (l : Layer) (commits : Nat) :
    ClipRemoved × Layer × Nat :=
  let cleared := { a.clip with name := none }
  let added := layer_add_clip l cleared
  ({ a with clip := added.2, status := AStatus.undone }, added.1, commits + 1)

/-- LayerAdded action: holds the layer object; the timeline (its ges_timeline
field) is the mutable state. Neither method calls _done()/_undone(). -/
structure LayerAdded where
  ges_layer : Layer
  status : AStatus
  deriving DecidableEq, Repr

/-- LayerAdded.do: ges_timeline.add_layer(ges_layer) and nothing else — no
commit request, no state marker. -/
def LayerAdded.do_ (a : LayerAdded) (tl : Timeline) : LayerAdded × Timeline :=
  (a, timeline_add_layer tl a.ges_layer)

/-- LayerAdded.undo: ges_timeline.remove_layer(ges_layer);
pipeline.commit_timeline(). No state marker. -/
def LayerAdded.undo (a : LayerAdded) (tl : Timeline) : LayerAdded × Timeline :=
  (a, commit_timeline (timeline_remove_layer tl a.ges_layer.id))

/-- LayerRemoved action: holds the layer object; state as in LayerAdded. -/
structure LayerRemoved where
  ges_layer : Layer
  status : AStatus
  deriving DecidableEq, Repr

/-- LayerRemoved.do: ges_timeline.remove_layer(ges_layer);
pipeline.commit_timeline(). No state marker. -/
def LayerRemoved.do_ (a : LayerRemoved) (tl : Timeline) : LayerRemoved × Timeline :=
  (a, commit_timeline (timeline_remove_layer tl a.ges_layer.id))

/-- LayerRemoved.undo: ges_timeline.add_layer(ges_layer) and nothing else. -/
def LayerRemoved.undo (a : LayerRemoved) (tl : Timeline) : LayerRemoved × Timeline :=
  (a, timeline_add_layer tl a.ges_layer)

/-- LayerMoved action: layer reference (by id) plus the old and new priority.
Neither method calls _done()/_undone() nor requests a commit. -/
structure LayerMoved where
  ges_layer : Nat
  old_priority : Int
  priority : Int
  status : AStatus
  deriving DecidableEq, Repr

/-- LayerMoved.do: ges_layer.props.priority = priority (an assignment to the
referenced layer inside the timeline). -/
def LayerMoved.do_ (a : LayerMoved) (tl : Timeline) : LayerMoved × Timeline :=
  (a, { tl with layers := tl.layers.map (fun l =>
         if l.id = a.ges_layer then { l with priority := a.priority } else l) })

/-- LayerMoved.undo: ges_layer.props.priority = old_priority. -/
def LayerMoved.undo (a : LayerMoved) (tl : Timeline) : LayerMoved × Timeline :=
  (a, { tl with layers := tl.layers.map (fun l =>
         if l.id = a.ges_layer then { l with priority := a.old_priority } else l) })

/-- ControlSourceValueAdded action: element reference (by id), the keyframe
(timestamp, value) and the bound property name; the control source's keyframe
list is the mutable state. -/
structure ControlSourceValueAdded where
  track_element : Nat
  keyframe : Nat × Int
  property_name : String
  status : AStatus
  deriving DecidableEq, Repr

/-- ControlSourceValueAdded.do: control_source.set(timestamp, value); _done(). -/
def ControlSourceValueAdded.do_ (a : ControlSourceValueAdded) (s : ControlSource) :
    ControlSourceValueAdded × ControlSource :=
  ({ a with status := AStatus.done }, cs_set s a.keyframe.1 a.keyframe.2)

/-- ControlSourceValueAdded.undo: control_source.unset(timestamp); _undone(). -/
def ControlSourceValueAdded.undo (a : ControlSourceValueAdded) (s : ControlSource) :
    ControlSourceValueAdded × ControlSource :=
  ({ a with status := AStatus.undone }, cs_unset s a.keyframe.1)

/-- ControlSourceValueRemoved action: fields as in ControlSourceValueAdded. -/
structure ControlSourceValueRemoved where
  track_element : Nat
  keyframe : Nat × Int
  property_name : String
  status : AStatus
  deriving DecidableEq, Repr

/-- ControlSourceValueRemoved.do: control_source.unset(timestamp) and then
self._undone() — the source marks the action undone inside do. -/
def ControlSourceValueRemoved.do_ (a : ControlSourceValueRemoved) (s : ControlSource) :
    ControlSourceValueRemoved × ControlSource :=
  ({ a with status := AStatus.undone }, cs_unset s a.keyframe.1)

/-- ControlSourceValueRemoved.undo: control_source.set(timestamp, value) and
then self._done() — the source marks the action done inside undo. -/
def ControlSourceValueRemoved.undo (a : ControlSourceValueRemoved) (s : ControlSource) :
    ControlSourceValueRemoved × ControlSource :=
  ({ a with status := AStatus.done }, cs_set s a.keyframe.1 a.keyframe.2)

/-- ControlSourceKeyframeChanged action: old and new (timestamp, value)
snapshots. -/
structure ControlSourceKeyframeChanged where
  old_snapshot : Nat × Int
  new_snapshot : Nat × Int
  status : AStatus
  deriving DecidableEq, Repr

/-- ControlSourceKeyframeChanged._applySnapshot: a single control_source.set. -/
def applySnapshot (s : ControlSource) (snapshot : Nat × Int) : ControlSource :=
  cs_set s snapshot.1 snapshot.2

/-- ControlSourceKeyframeChanged.do: apply the new snapshot; _done(). -/
def ControlSourceKeyframeChanged.do_ (a : ControlSourceKeyframeChanged) (s : ControlSource) :
    ControlSourceKeyframeChanged × ControlSource :=
  ({ a with status := AStatus.done }, applySnapshot s a.new_snapshot)

/-- ControlSourceKeyframeChanged.undo: apply the old snapshot; _undone(). -/
def ControlSourceKeyframeChanged.undo (a : ControlSourceKeyframeChanged) (s : ControlSource) :
    ControlSourceKeyframeChanged × ControlSource :=
  ({ a with status := AStatus.undone }, applySnapshot s a.old_snapshot)

/-- ActivePropertyChanged action: the stored toggling flag. The mutable state of
do/undo is the active flag of the track element referenced through
effect_action.track_element. -/
structure ActivePropertyChanged where
  active : Bool
  status : AStatus
  deriving DecidableEq, Repr

/-- ActivePropertyChanged.__init__(effect_action, active): self.active = not active. -/
def ActivePropertyChanged.init (active : Bool) : ActivePropertyChanged :=
  { active := !active, status := AStatus.pending }

/-- ActivePropertyChanged.do: element.active = self.active; self.active = not
self.active; _done(). Returns the action and the element's new active flag. -/
def ActivePropertyChanged.do_ (a : ActivePropertyChanged) (_elemActive : Bool) :
    ActivePropertyChanged × Bool :=
  ({ active := !a.active, status := AStatus.done }, a.active)

/-- ActivePropertyChanged.undo: identical assignment sequence, marking undone. -/
def ActivePropertyChanged.undo (a : ActivePropertyChanged) (_elemActive : Bool) :
    ActivePropertyChanged × Bool :=
  ({ active := !a.active, status := AStatus.undone }, a.active)

/-- TimelineObserver._trackElementActiveChangedCb: construct
ActivePropertyChanged(add_effect_action, active) and push it. -/
def trackElementActiveChangedCb (active : Bool) : ActivePropertyChanged :=
  ActivePropertyChanged.init active

/-- The TimelineObserver state relevant to control-source observation: which
control sources (by id) still hold the observer's value-added and
value-removed subscriptions, the control_source_keyframe_trackers map, and a
count of debug log lines. -/
structure TimelineObserverCS where
  cs_value_added_subs : List Nat
  cs_value_removed_subs : List Nat
  control_source_keyframe_trackers : List (Nat × KeyframeChangeTracker)
  debugCount : Nat
  deriving DecidableEq, Repr

/-- TimelineObserver._disconnectFromControlSource: first try block disconnects
the two observer callbacks from the control source, a TypeError (callback not
connected) aborting the block and being swallowed; second try block pops the
tracker, detaches it and disconnects the keyframe-moved callback, a KeyError
(tracker already gone) being swallowed with a debug log. Any other escaping
exception propagates. -/
def disconnectFromControlSource (st : TimelineObserverCS) (control_source : Nat) :
    Except PyError TimelineObserverCS :=
  let st1 :=
    if control_source ∈ st.cs_value_added_subs then
      let stA := { st with cs_value_added_subs :=
                     st.cs_value_added_subs.filter (fun n => n ≠ control_source) }
      if control_source ∈ stA.cs_value_removed_subs then
        { stA with cs_value_removed_subs :=
            stA.cs_value_removed_subs.filter (fun n => n ≠ control_source) }
      else stA
    else st
  match assocPop st1.control_source_keyframe_trackers control_source with
  | none => Except.ok { st1 with debugCount := st1.debugCount + 1 }
  | some (tracker, rest) =>
    let st2 := { st1 with control_source_keyframe_trackers := rest }
    match KeyframeChangeTracker.disconnectFromObject tracker with
    | Except.error PyError.keyError =>
      Except.ok { st2 with debugCount := st2.debugCount + 1 }
    | Except.error PyError.typeError => Except.error PyError.typeError
    | Except.ok tracker1 =>
      if tracker1.subsKeyframeMoved then Except.ok st2
      else Except.error PyError.typeError

/-- Left-biased choice on optional values, used to state lookup lemmas. -/
def optOr {α : Type} (a b : Option α) : Option α :=
  match a with
  | some x => some x
  | none => b

/-- Observed content of a track element: everything the model exposes except the
object identity (a redo deliberately produces a distinct object instance). -/
def elemObs (e : TrackElement) :
    Asset × List (String × Int) × Bool × List String × Option Nat :=
  (e.asset, e.props, e.active, e.bindings, e.track)

/-- Observed content of a clip: its fields with track elements taken up to
object identity. -/
def clipObs (c : Clip) :
    Nat × Option String × List (String × Int) ×
      List (Asset × List (String × Int) × Bool × List String × Option Nat) :=
  (c.id, c.name, c.props, c.elements.map elemObs)

/-- n rounds of strictly alternating undo(); do()/redo() applied to an
ActivePropertyChanged action and the referenced element's active flag. -/
def altUndoDo : Nat → ActivePropertyChanged × Bool → ActivePropertyChanged × Bool
  | 0, s => s
  | n + 1, s =>
    let u := ActivePropertyChanged.undo s.1 s.2
    let d := ActivePropertyChanged.do_ u.1 u.2
    altUndoDo n d

/-- Sample writable pspec used to evaluate theorems on concrete inputs. -/
def wPSpec : PSpec :=
  { owner_type_name := "GstVolume", name := "volume", writable := true }

/-- Sample non-writable pspec whose short name is on the ignore list. -/
def wPSpecRO : PSpec :=
  { owner_type_name := "GstVolume", name := "qos", writable := false }

/-- Sample asset declaring one writable and one ignored/non-writable property. -/
def wAsset : Asset :=
  { asset_id := "volume-effect", pspecs := [(wPSpec, 10), (wPSpecRO, 0)] }

/-- Sample ignore list (PROPS_TO_IGNORE stand-in). -/
def wIgnore : List String := ["qos"]

/-- Sample track element instantiated from wAsset and attached to a track. -/
def wElem : TrackElement :=
  { id := 1, asset := wAsset,
    props := [("GstVolume::volume", 10), ("GstVolume::qos", 0)],
    active := true, bindings := [], track := some 0 }

/-- Sample clip holding wElem. -/
def wClip : Clip :=
  { id := 2, name := some "clip0", props := [("start", 0), ("duration", 5)],
    elements := [wElem] }

/-- Sample layer holding wClip. -/
def wLayer : Layer :=
  { id := 3, priority := 0, auto_transition := false, clips := [wClip] }

/-- Sample timeline holding wLayer, with no commit requests yet. -/
def wTimeline : Timeline := { layers := [wLayer], commits := 0 }

/-- Sample child-property tracker that tracks wElem and the model identities 7
and 8 used as freshly allocated elements in witnesses. -/
def wWatcher : TrackElementChildPropertyTracker :=
  { tracked_track_elements := [(1, [("GstVolume::volume", 10)]), (7, []), (8, [])],
    track_subs := [], deep_notify_subs := [1] }

theorem optOr_none_left {α : Type} (b : Option α) : optOr none b = b := rfl

theorem optOr_none_right {α : Type} (a : Option α) : optOr a none = a := by
  cases a <;> rfl

theorem optOr_assoc {α : Type} (a b c : Option α) :
    optOr (optOr a b) c = optOr a (optOr b c) := by
  cases a <;> rfl

theorem propKeys_nil : propKeys [] = [] := rfl

theorem propKeys_cons (kv : String × Int) (m : List (String × Int)) :
    propKeys (kv :: m) = kv.1 :: propKeys m := rfl

theorem propKeys_append (m1 m2 : List (String × Int)) :
    propKeys (m1 ++ m2) = propKeys m1 ++ propKeys m2 := by
  simp [propKeys]

theorem propGet_propSet (m : List (String × Int)) (k k2 : String) (v : Int) :
    propGet (propSet m k v) k2 = if k = k2 then some v else propGet m k2 := by
  induction m with
  | nil =>
    by_cases h : k = k2 <;> simp [propSet, propGet, h]
  | cons kv rest ih =>
    obtain ⟨k1, v1⟩ := kv
    by_cases h1 : k1 = k
    · subst h1
      by_cases h2 : k1 = k2 <;> simp [propSet, propGet, h2]
    · by_cases h2 : k1 = k2
      · have hk : ¬ (k = k2) := fun hh => h1 (h2.trans hh.symm)
        have hk2 : ¬ (k2 = k) := fun hh => hk hh.symm
        simp [propSet, propGet, h1, h2, hk, hk2]
      · simp [propSet, propGet, h1, h2, ih]

theorem propSet_propSet_same (m : List (String × Int)) (k : String) (a b : Int) :
    propSet (propSet m k a) k b = propSet m k b := by
  induction m with
  | nil => simp [propSet]
  | cons kv rest ih =>
    obtain ⟨k1, v1⟩ := kv
    by_cases h1 : k1 = k
    · subst h1
      simp [propSet]
    · simp [propSet, h1, ih]

theorem propGet_append (m1 m2 : List (String × Int)) (k : String) :
    propGet (m1 ++ m2) k = optOr (propGet m1 k) (propGet m2 k) := by
  induction m1 with
  | nil => simp [propGet, optOr]
  | cons kv rest ih =>
    obtain ⟨k1, v1⟩ := kv
    by_cases h1 : k1 = k <;> simp [propGet, h1, ih, optOr]

theorem applyProps_nil (m : List (String × Int)) : applyProps m [] = m := rfl

theorem applyProps_cons (m : List (String × Int)) (kv : String × Int)
    (ps : List (String × Int)) :
    applyProps m (kv :: ps) = applyProps (propSet m kv.1 kv.2) ps := rfl

theorem propGet_applyProps (ps m : List (String × Int)) (k : String) :
    propGet (applyProps m ps) k = optOr (propGet ps.reverse k) (propGet m k) := by
  induction ps generalizing m with
  | nil => simp [applyProps, propGet, optOr]
  | cons kv ps ih =>
    rw [applyProps_cons, ih, List.reverse_cons, propGet_append, optOr_assoc]
    congr 1
    rw [propGet_propSet]
    by_cases h : kv.1 = k <;> simp [propGet, h, optOr]

theorem propKeys_propSet_of_mem (m : List (String × Int)) (k : String) (v : Int)
    (h : k ∈ propKeys m) : propKeys (propSet m k v) = propKeys m := by
  induction m with
  | nil => simp [propKeys] at h
  | cons kv rest ih =>
    obtain ⟨k1, v1⟩ := kv
    by_cases h1 : k1 = k
    · subst h1
      simp [propSet, propKeys_cons]
    · have h2 : k ∈ propKeys rest := by
        rw [propKeys_cons, List.mem_cons] at h
        rcases h with h | h
        · exact absurd h.symm h1
        · exact h
      simp [propSet, propKeys_cons, h1, ih h2]

theorem propKeys_applyProps (ps m : List (String × Int))
    (h : ∀ k2 ∈ propKeys ps, k2 ∈ propKeys m) :
    propKeys (applyProps m ps) = propKeys m := by
  induction ps generalizing m with
  | nil => rfl
  | cons kv ps ih =>
    rw [applyProps_cons]
    have hk : kv.1 ∈ propKeys m := h kv.1 (by rw [propKeys_cons]; exact List.mem_cons_self _ _)
    have hkeys := propKeys_propSet_of_mem m kv.1 kv.2 hk
    rw [ih (propSet m kv.1 kv.2) ?_, hkeys]
    intro k2 hk2
    rw [hkeys]
    apply h k2
    rw [propKeys_cons]
    exact List.mem_cons_of_mem _ hk2

theorem propGet_eq_none_iff (m : List (String × Int)) (k : String) :
    propGet m k = none ↔ k ∉ propKeys m := by
  induction m with
  | nil => simp [propGet, propKeys]
  | cons kv rest ih =>
    obtain ⟨k1, v1⟩ := kv
    rw [propKeys_cons, List.mem_cons]
    by_cases h1 : k1 = k
    · subst h1
      simp [propGet]
    · have h1s : ¬ (k = k1) := fun hh => h1 hh.symm
      simp [propGet, h1, h1s, ih]

theorem mem_of_propGet_eq_some (m : List (String × Int)) (k : String) (v : Int)
    (h : propGet m k = some v) : (k, v) ∈ m := by
  induction m with
  | nil => simp [propGet] at h
  | cons kv rest ih =>
    obtain ⟨k1, v1⟩ := kv
    by_cases h1 : k1 = k
    · subst h1
      simp [propGet] at h
      simp [h]
    · simp [propGet, h1] at h
      simp [ih h]

theorem propGet_eq_some_of_mem_nodup (m : List (String × Int)) (k : String) (v : Int)
    (hnd : (propKeys m).Nodup) (h : (k, v) ∈ m) : propGet m k = some v := by
  induction m with
  | nil => simp at h
  | cons kv rest ih =>
    obtain ⟨k1, v1⟩ := kv
    rw [propKeys_cons, List.nodup_cons] at hnd
    rcases List.mem_cons.1 h with h | h
    · have ha : k = k1 := congrArg Prod.fst h
      have hb : v = v1 := congrArg Prod.snd h
      subst ha
      subst hb
      simp [propGet]
    · have hmem : k ∈ propKeys rest := List.mem_map_of_mem Prod.fst h
      have hne : k1 ≠ k := fun he => hnd.1 (he ▸ hmem)
      simp [propGet, hne]
      exact ih hnd.2 h

theorem propGet_reverse_of_nodup (m : List (String × Int)) (k : String)
    (hnd : (propKeys m).Nodup) : propGet m.reverse k = propGet m k := by
  have hndr : (propKeys m.reverse).Nodup := by
    have : propKeys m.reverse = (propKeys m).reverse := by simp [propKeys]
    rw [this]
    exact List.nodup_reverse.2 hnd
  cases hm : propGet m k with
  | none =>
    rw [(propGet_eq_none_iff m.reverse k).2]
    intro hmem
    apply (propGet_eq_none_iff m k).1 hm
    have : propKeys m.reverse = (propKeys m).reverse := by simp [propKeys]
    rw [this] at hmem
    exact List.mem_reverse.1 hmem
  | some v =>
    exact propGet_eq_some_of_mem_nodup m.reverse k v hndr
      (List.mem_reverse.2 (mem_of_propGet_eq_some m k v hm))

theorem propMap_ext (m1 : List (String × Int)) : ∀ (m2 : List (String × Int)),
    propKeys m1 = propKeys m2 → (propKeys m1).Nodup →
    (∀ k, propGet m1 k = propGet m2 k) → m1 = m2 := by
  induction m1 with
  | nil =>
    intro m2 hk _ _
    cases m2 with
    | nil => rfl
    | cons kv m2 =>
      rw [propKeys_nil, propKeys_cons] at hk
      exact absurd hk (by simp)
  | cons kv m1 ih =>
    intro m2 hk hnd h
    obtain ⟨k1, v1⟩ := kv
    cases m2 with
    | nil =>
      rw [propKeys_nil, propKeys_cons] at hk
      exact absurd hk (by simp)
    | cons kv2 m2 =>
      obtain ⟨k2, v2⟩ := kv2
      rw [propKeys_cons, propKeys_cons] at hk
      injection hk with hk12 hkt
      subst hk12
      have h1 := h k1
      simp [propGet] at h1
      subst h1
      rw [propKeys_cons, List.nodup_cons] at hnd
      congr 1
      apply ih m2 hkt hnd.2
      intro k
      by_cases hkk : k1 = k
      · subst hkk
        rw [(propGet_eq_none_iff m1 k1).2 hnd.1,
            (propGet_eq_none_iff m2 k1).2 (hkt ▸ hnd.1)]
      · have h2 := h k
        simpa [propGet, hkk] using h2

theorem assocGet_assocSet {α : Type} (m : List (Nat × α)) (k k2 : Nat) (v : α) :
    assocGet (assocSet m k v) k2 = if k = k2 then some v else assocGet m k2 := by
  induction m with
  | nil =>
    by_cases h : k = k2 <;> simp [assocSet, assocGet, h]
  | cons kv rest ih =>
    obtain ⟨k1, v1⟩ := kv
    by_cases h1 : k1 = k
    · subst h1
      by_cases h2 : k1 = k2 <;> simp [assocSet, assocGet, h2]
    · by_cases h2 : k1 = k2
      · have hk : ¬ (k = k2) := fun hh => h1 (h2.trans hh.symm)
        have hk2 : ¬ (k2 = k) := fun hh => hk hh.symm
        simp [assocSet, assocGet, h1, h2, hk, hk2]
      · simp [assocSet, assocGet, h1, h2, ih]

theorem assocPop_eq_none {α : Type} (m : List (Nat × α)) (k : Nat)
    (h : assocGet m k = none) : assocPop m k = none := by
  induction m with
  | nil => rfl
  | cons kv rest ih =>
    obtain ⟨k1, v1⟩ := kv
    by_cases h1 : k1 = k
    · simp [assocGet, h1] at h
    · simp [assocGet, h1] at h
      simp [assocPop, h1, ih h]

theorem pspecSelect_mem_iff (keep : PSpec → Bool) (el : TrackElement) (kv : String × Int) :
    kv ∈ pspecSelect keep el ↔ ∃ p, p ∈ list_children_properties el ∧ keep p = true ∧
      kv = (child_property_name p, (get_child_property el (child_property_name p)).2) := by
  unfold pspecSelect
  rw [List.mem_filterMap]
  constructor
  · rintro ⟨p, hp, hf⟩
    by_cases hk : keep p = true
    · refine ⟨p, hp, hk, ?_⟩
      simp [hk] at hf
      exact hf.symm
    · simp [hk] at hf
  · rintro ⟨p, hp, hk, he⟩
    exact ⟨p, hp, by simp [hk, he]⟩

theorem propKeys_pspecSelect (keep : PSpec → Bool) (el : TrackElement) :
    ∀ k ∈ propKeys (pspecSelect keep el), ∃ p, p ∈ list_children_properties el ∧
      keep p = true ∧ k = child_property_name p := by
  intro k hk
  simp only [propKeys] at hk
  obtain ⟨kv, hkv, hfst⟩ := List.mem_map.1 hk
  obtain ⟨p, hp, hkeep, he⟩ := (pspecSelect_mem_iff keep el kv).1 hkv
  refine ⟨p, hp, hkeep, ?_⟩
  rw [← hfst, he]

theorem pspecSelect_keys_sublist (keep : PSpec → Bool) (el : TrackElement) :
    ∀ l : List PSpec, List.Sublist (propKeys (l.filterMap (fun p =>
      if keep p then
        some (child_property_name p, (get_child_property el (child_property_name p)).2)
      else none))) (l.map child_property_name) := by
  intro l
  induction l with
  | nil => simp [propKeys]
  | cons p l ih =>
    by_cases hk : keep p = true
    · rw [List.filterMap_cons, List.map_cons]
      simp only [hk, if_true]
      rw [propKeys_cons]
      exact List.Sublist.cons₂ _ ih
    · rw [List.filterMap_cons, List.map_cons]
      simp only [hk, if_false]
      exact List.Sublist.cons _ ih

theorem propKeys_pspecSelect_nodup (keep : PSpec → Bool) (el : TrackElement)
    (hnd : ((list_children_properties el).map child_property_name).Nodup) :
    (propKeys (pspecSelect keep el)).Nodup :=
  List.Nodup.sublist (pspecSelect_keys_sublist keep el (list_children_properties el)) hnd

theorem propGet_pspecSelect_of_keep (keep : PSpec → Bool) (el : TrackElement) (p : PSpec)
    (hnd : ((list_children_properties el).map child_property_name).Nodup)
    (hp : p ∈ list_children_properties el) (hkeep : keep p = true) :
    propGet (pspecSelect keep el) (child_property_name p) =
      some ((get_child_property el (child_property_name p)).2) := by
  apply propGet_eq_some_of_mem_nodup
  · exact propKeys_pspecSelect_nodup keep el hnd
  · exact (pspecSelect_mem_iff keep el _).2 ⟨p, hp, hkeep, rfl⟩

theorem propGet_pspecSelect_of_not (keep : PSpec → Bool) (el : TrackElement) (k : String)
    (h : ∀ p ∈ list_children_properties el, child_property_name p = k → keep p = false) :
    propGet (pspecSelect keep el) k = none := by
  rw [propGet_eq_none_iff]
  intro hk
  obtain ⟨p, hp, hkeep, he⟩ := propKeys_pspecSelect keep el k hk
  rw [h p hp he.symm] at hkeep
  cases hkeep

theorem setChildProps_eq (el : TrackElement) (ps : List (String × Int)) :
    setChildProps el ps = { el with props := applyProps el.props ps } := by
  induction ps generalizing el with
  | nil => rfl
  | cons kv ps ih =>
    show setChildProps (set_child_property el kv.1 kv.2) ps = _
    rw [ih]
    rfl

theorem cs_unset_cs_set (s : ControlSource) (t : Nat) (v : Int) :
    cs_unset (cs_set s t v) t = cs_unset s t := by
  induction s with
  | nil => simp [cs_set, cs_unset]
  | cons kv rest ih =>
    obtain ⟨t1, v1⟩ := kv
    rcases Nat.lt_trichotomy t t1 with h1 | h1 | h1
    · have hne : t1 ≠ t := by omega
      simp [cs_set, h1, cs_unset, hne]
    · subst h1
      simp [cs_set, Nat.lt_irrefl, cs_unset]
    · have hh1 : ¬ t < t1 := by omega
      have hh2 : ¬ t = t1 := by omega
      have hne : t1 ≠ t := by omega
      simp [cs_set, hh1, hh2, cs_unset, hne] at ih ⊢
      rw [ih]

theorem cs_set_cs_set_same (s : ControlSource) (t : Nat) (a b : Int) :
    cs_set (cs_set s t a) t b = cs_set s t b := by
  induction s with
  | nil => simp [cs_set]
  | cons kv rest ih =>
    obtain ⟨t1, v1⟩ := kv
    rcases Nat.lt_trichotomy t t1 with h1 | h1 | h1
    · simp [cs_set, h1, Nat.lt_irrefl]
    · subst h1
      simp [cs_set, Nat.lt_irrefl]
    · have hh1 : ¬ t < t1 := by omega
      have hh2 : ¬ t = t1 := by omega
      simp [cs_set, hh1, hh2, ih]

theorem cs_unset_idem (s : ControlSource) (t : Nat) :
    cs_unset (cs_unset s t) t = cs_unset s t := by
  unfold cs_unset
  rw [List.filter_filter]
  congr 1
  funext kv
  exact Bool.and_self _

theorem csSorted_tail (kv : Nat × Int) (s : ControlSource)
    (h : csSorted (kv :: s) = true) : csSorted s = true := by
  cases s with
  | nil => rfl
  | cons kv2 rest =>
    obtain ⟨t1, v1⟩ := kv
    obtain ⟨t2, v2⟩ := kv2
    simp [csSorted] at h
    simp [csSorted, h.2]

theorem csSorted_head_lt (t1 : Nat) (v1 : Int) (s : ControlSource)
    (h : csSorted ((t1, v1) :: s) = true) : ∀ kv ∈ s, t1 < kv.1 := by
  induction s generalizing t1 v1 with
  | nil =>
    intro kv hkv
    cases hkv
  | cons kv2 rest ih =>
    intro kv hkv
    obtain ⟨t2, v2⟩ := kv2
    simp [csSorted] at h
    rcases List.mem_cons.1 hkv with h2 | h2
    · rw [h2]
      exact h.1
    · exact Nat.lt_trans h.1 (ih t2 v2 (by simp [csSorted, h.2]) kv h2)

theorem cs_set_cs_unset (s : ControlSource) (t : Nat) (v : Int)
    (h : csSorted s = true) : cs_set (cs_unset s t) t v = cs_set s t v := by
  induction s with
  | nil => rfl
  | cons kv rest ih =>
    obtain ⟨t1, v1⟩ := kv
    have hrest : csSorted rest = true := csSorted_tail _ _ h
    have hlt := csSorted_head_lt t1 v1 rest h
    rcases Nat.lt_trichotomy t t1 with h1 | h1 | h1
    · have hall : cs_unset ((t1, v1) :: rest) t = (t1, v1) :: rest := by
        unfold cs_unset
        rw [List.filter_eq_self.2]
        intro kv hkv
        rcases List.mem_cons.1 hkv with h2 | h2
        · rw [h2]
          exact decide_eq_true (by omega)
        · have := hlt kv h2
          exact decide_eq_true (by omega)
      rw [hall]
    · subst h1
      have hfilter : List.filter (fun kv => !decide (kv.1 = t)) rest = rest := by
        rw [List.filter_eq_self]
        intro kv hkv
        have := hlt kv hkv
        simp
        omega
      have hdrop : cs_unset ((t, v1) :: rest) t = rest := by
        simp [cs_unset, hfilter]
      rw [hdrop]
      cases rest with
      | nil => simp [cs_set, Nat.lt_irrefl]
      | cons kv2 r2 =>
        obtain ⟨t2, v2⟩ := kv2
        have ht2 : t < t2 := hlt (t2, v2) (List.mem_cons_self _ _)
        simp [cs_set, ht2, Nat.lt_irrefl]
    · have hne : t1 ≠ t := by omega
      have hh1 : ¬ t < t1 := by omega
      have hh2 : ¬ t = t1 := by omega
      simp [cs_unset, cs_set, hne, hh1, hh2] at ih ⊢
      exact ih hrest

theorem propKeys_elemDefaults (a : Asset) :
    propKeys (elemDefaults a) = (a.pspecs.map Prod.fst).map child_property_name := by
  unfold propKeys elemDefaults
  rw [List.map_map, List.map_map]
  rfl

theorem mem_propKeys_elemDefaults (a : Asset) (p : PSpec)
    (hp : p ∈ a.pspecs.map Prod.fst) :
    child_property_name p ∈ propKeys (elemDefaults a) := by
  rw [propKeys_elemDefaults]
  exact List.mem_map_of_mem _ hp

theorem replay_capture_eq (a : Asset) (ignore : List String) (ps : List (String × Int))
    (el : TrackElement)
    (hel_asset : el.asset = a)
    (hel_props : el.props = applyProps (elemDefaults a) ps)
    (hnd : ((a.pspecs.map Prod.fst).map child_property_name).Nodup)
    (hps : ∀ kv ∈ ps, ∃ p, p ∈ a.pspecs.map Prod.fst ∧ kv.1 = child_property_name p ∧
            p.writable = true ∧ p.name ∉ ignore) :
    applyProps (elemDefaults a)
        (pspecSelect (fun p => p.writable && decide (p.name ∉ ignore)) el)
      = applyProps (elemDefaults a) ps := by
  have hk_children : list_children_properties el = a.pspecs.map Prod.fst := by
    unfold list_children_properties
    rw [hel_asset]
  have hndD : (propKeys (elemDefaults a)).Nodup := by
    rw [propKeys_elemDefaults]
    exact hnd
  have hnd_el : ((list_children_properties el).map child_property_name).Nodup := by
    rw [hk_children]
    exact hnd
  have hsub_cap : ∀ k ∈ propKeys (pspecSelect
      (fun p => p.writable && decide (p.name ∉ ignore)) el), k ∈ propKeys (elemDefaults a) := by
    intro k hk
    obtain ⟨p, hp, _, he⟩ := propKeys_pspecSelect _ el k hk
    rw [he]
    exact mem_propKeys_elemDefaults a p (hk_children ▸ hp)
  have hsub_ps : ∀ k ∈ propKeys ps, k ∈ propKeys (elemDefaults a) := by
    intro k hk
    simp only [propKeys] at hk
    obtain ⟨kv, hkv, hk1⟩ := List.mem_map.1 hk
    obtain ⟨p, hpmem, hkvk, _, _⟩ := hps kv hkv
    have : k = child_property_name p := by rw [← hk1, hkvk]
    rw [this]
    exact mem_propKeys_elemDefaults a p hpmem
  have hkeys_cap := propKeys_applyProps _ (elemDefaults a) hsub_cap
  have hkeys_ps := propKeys_applyProps ps (elemDefaults a) hsub_ps
  have capnd : (propKeys (pspecSelect
      (fun p => p.writable && decide (p.name ∉ ignore)) el)).Nodup :=
    propKeys_pspecSelect_nodup _ el hnd_el
  apply propMap_ext
  · rw [hkeys_cap, hkeys_ps]
  · rw [hkeys_cap]
    exact hndD
  · intro k
    rw [propGet_applyProps, propGet_applyProps,
        propGet_reverse_of_nodup _ k capnd]
    by_cases hex : ∃ p, p ∈ a.pspecs.map Prod.fst ∧ child_property_name p = k ∧
        p.writable = true ∧ p.name ∉ ignore
    · obtain ⟨p, hpmem, hpk, hw, hi⟩ := hex
      have hkeep : (fun p => p.writable && decide (p.name ∉ ignore)) p = true := by
        simp [hw, hi]
      have hcap : propGet (pspecSelect
          (fun p => p.writable && decide (p.name ∉ ignore)) el) k =
          some ((get_child_property el k).2) := by
        rw [← hpk]
        exact propGet_pspecSelect_of_keep _ el p hnd_el (hk_children ▸ hpmem) hkeep
      have hkmem : k ∈ propKeys (applyProps (elemDefaults a) ps) := by
        rw [hkeys_ps, ← hpk]
        exact mem_propKeys_elemDefaults a p hpmem
      have hnotnone : propGet (applyProps (elemDefaults a) ps) k ≠ none :=
        fun hq => ((propGet_eq_none_iff _ _).1 hq) hkmem
      obtain ⟨v, hv⟩ := Option.ne_none_iff_exists'.1 hnotnone
      have hgc : (get_child_property el k).2 = v := by
        simp [get_child_property, hel_props, hv]
      rw [hcap, hgc, ← propGet_applyProps ps (elemDefaults a) k, hv]
      rfl
    · have hcapn : propGet (pspecSelect
          (fun p => p.writable && decide (p.name ∉ ignore)) el) k = none := by
        apply propGet_pspecSelect_of_not
        intro p hp hpk
        by_contra hkeepne
        have hkeep : (fun p => p.writable && decide (p.name ∉ ignore)) p = true := by
          cases hq : (fun p => p.writable && decide (p.name ∉ ignore)) p
          · exact absurd hq hkeepne
          · rfl
        simp only [Bool.and_eq_true, decide_eq_true_eq] at hkeep
        exact hex ⟨p, hk_children ▸ hp, hpk, hkeep.1, hkeep.2⟩
      have hpsn : propGet ps.reverse k = none := by
        rw [propGet_eq_none_iff]
        intro hmem
        have hmem2 : k ∈ propKeys ps := by
          have hrev : propKeys ps.reverse = (propKeys ps).reverse := by simp [propKeys]
          rw [hrev] at hmem
          exact List.mem_reverse.1 hmem
        simp only [propKeys] at hmem2
        obtain ⟨kv, hkv, hk1⟩ := List.mem_map.1 hmem2
        obtain ⟨p, hpmem, hkvk, hw, hi⟩ := hps kv hkv
        exact hex ⟨p, hpmem, by rw [← hkvk]; exact hk1, hw, hi⟩
      rw [hcapn, hpsn]

theorem filter_elements_append (l : List TrackElement) (x : TrackElement) (n : Nat)
    (h : ∀ e ∈ l, e.id ≠ n) (hx : x.id = n) :
    (l ++ [x]).filter (fun e => e.id ≠ n) = l := by
  rw [List.filter_append]
  have h1 : l.filter (fun e => e.id ≠ n) = l :=
    List.filter_eq_self.2 (fun e he => decide_eq_true (h e he))
  have h2 : [x].filter (fun e => e.id ≠ n) = ([] : List TrackElement) := by
    simp [List.filter, hx]
  rw [h1, h2, List.append_nil]

theorem filter_elements_eq_self (l : List TrackElement) (n : Nat)
    (h : ∀ e ∈ l, e.id ≠ n) : l.filter (fun e => e.id ≠ n) = l :=
  List.filter_eq_self.2 (fun e he => decide_eq_true (h e he))

theorem find_elem_append (l : List TrackElement) (x : TrackElement) (n : Nat)
    (h : ∀ e ∈ l, e.id ≠ n) (hx : x.id = n) :
    (l ++ [x]).find? (fun e => e.id == n) = some x := by
  induction l with
  | nil =>
    rw [List.nil_append]
    rw [List.find?_cons_of_pos]
    simp [hx]
  | cons e l ih =>
    rw [List.cons_append, List.find?_cons_of_neg]
    · exact ih (fun e2 he2 => h e2 (List.mem_cons_of_mem _ he2))
    · simp
      exact h e (List.mem_cons_self _ _)

theorem filter_clips_eq_self (l : List Clip) (n : Nat)
    (h : ∀ c ∈ l, c.id ≠ n) : l.filter (fun c => c.id ≠ n) = l :=
  List.filter_eq_self.2 (fun c hc => decide_eq_true (h c hc))

theorem filter_clips_append (l : List Clip) (x : Clip) (n : Nat)
    (h : ∀ c ∈ l, c.id ≠ n) (hx : x.id = n) :
    (l ++ [x]).filter (fun c => c.id ≠ n) = l := by
  rw [List.filter_append, filter_clips_eq_self l n h]
  have h2 : [x].filter (fun c => c.id ≠ n) = ([] : List Clip) := by
    simp [List.filter, hx]
  rw [h2, List.append_nil]

theorem filter_clips_append_idem (l : List Clip) (x : Clip) (n : Nat) (hx : x.id = n) :
    ((l.filter (fun c => c.id ≠ n)) ++ [x]).filter (fun c => c.id ≠ n)
      = l.filter (fun c => c.id ≠ n) := by
  apply filter_clips_append _ _ _ _ hx
  intro c hc
  have := (List.mem_filter.1 hc).2
  exact of_decide_eq_true this

theorem filter_layers_eq_self (l : List Layer) (n : Nat)
    (h : ∀ x ∈ l, x.id ≠ n) : l.filter (fun x => x.id ≠ n) = l :=
  List.filter_eq_self.2 (fun x hx => decide_eq_true (h x hx))

theorem filter_layers_append (l : List Layer) (x : Layer) (n : Nat)
    (h : ∀ y ∈ l, y.id ≠ n) (hx : x.id = n) :
    (l ++ [x]).filter (fun y => y.id ≠ n) = l := by
  rw [List.filter_append, filter_layers_eq_self l n h]
  have h2 : [x].filter (fun y => y.id ≠ n) = ([] : List Layer) := by
    simp [List.filter, hx]
  rw [h2, List.append_nil]

theorem filter_layers_append_idem (l : List Layer) (x : Layer) (n : Nat) (hx : x.id = n) :
    ((l.filter (fun y => y.id ≠ n)) ++ [x]).filter (fun y => y.id ≠ n)
      = l.filter (fun y => y.id ≠ n) := by
  apply filter_layers_append _ _ _ _ hx
  intro y hy
  exact of_decide_eq_true (List.mem_filter.1 hy).2

theorem trackElementAdded_do_eq (a : TrackElementAdded) (c : Clip) (fresh : Nat) :
    TrackElementAdded.do_ a c fresh =
      ({ a with track_element := some fresh, props_changed := [], status := AStatus.done },
       { c with elements := c.elements ++
           [setChildProps (freshElem a.asset fresh) a.track_element_props] }) := rfl

theorem trackElementAdded_undo_eq (a : TrackElementAdded) (c : Clip) (ignore : List String)
    (w : TrackElementChildPropertyTracker) (eid : Nat) (el : TrackElement)
    (pc : List (String × Int))
    (ha : a.track_element = some eid)
    (hfind : c.elements.find? (fun e => e.id == eid) = some el)
    (hpc : TrackElementChildPropertyTracker.getPropChangedFromTrackElement w eid = some pc) :
    TrackElementAdded.undo a c ignore w =
      some ({ a with
                track_element_props := pspecSelect (fun p => p.writable && decide (p.name ∉ ignore)) el,
                props_changed := pc, track_element := none, status := AStatus.undone },
            clip_remove c eid) := by
  unfold TrackElementAdded.undo
  rw [ha]
  dsimp only
  rw [hfind]
  dsimp only
  rw [hpc]

theorem trackElementRemoved_do_eq (a : TrackElementRemoved) (c : Clip) (ignore : List String)
    (w : TrackElementChildPropertyTracker) (eid : Nat) (el : TrackElement)
    (pc : List (String × Int))
    (ha : a.track_element = some eid)
    (hfind : c.elements.find? (fun e => e.id == eid) = some el)
    (hpc : TrackElementChildPropertyTracker.getPropChangedFromTrackElement w eid = some pc) :
    TrackElementRemoved.do_ a c ignore w =
      some ({ a with
                track_element_props := pspecSelect (fun p => p.writable && decide (p.name ∉ ignore)) el,
                props_changed := pc, track_element := none, status := AStatus.done },
            clip_remove c eid) := by
  unfold TrackElementRemoved.do_
  rw [ha]
  dsimp only
  rw [hfind]
  dsimp only
  rw [hpc]

theorem trackElementRemoved_undo_eq (a : TrackElementRemoved) (c : Clip) (fresh : Nat) :
    TrackElementRemoved.undo a c fresh =
      ({ a with track_element := some fresh, props_changed := [], status := AStatus.undone },
       { c with elements := c.elements ++
           [setChildProps (freshElem a.asset fresh) a.track_element_props] }) := rfl

theorem roundTrip_trackElementPropertyChanged (a : TrackElementPropertyChanged)
    (el : TrackElement) :
    (TrackElementPropertyChanged.do_
      (TrackElementPropertyChanged.undo
        (TrackElementPropertyChanged.do_ a el).1
        (TrackElementPropertyChanged.do_ a el).2).1
      (TrackElementPropertyChanged.undo
        (TrackElementPropertyChanged.do_ a el).1
        (TrackElementPropertyChanged.do_ a el).2).2).2
    = (TrackElementPropertyChanged.do_ a el).2 := by
  simp [TrackElementPropertyChanged.do_, TrackElementPropertyChanged.undo,
        set_child_property, propSet_propSet_same]

theorem roundTrip_clipPropertyChanged (a : ClipPropertyChanged) (c : Clip) :
    (ClipPropertyChanged.do_
      (ClipPropertyChanged.undo
        (ClipPropertyChanged.do_ a c).1 (ClipPropertyChanged.do_ a c).2).1
      (ClipPropertyChanged.undo
        (ClipPropertyChanged.do_ a c).1 (ClipPropertyChanged.do_ a c).2).2).2
    = (ClipPropertyChanged.do_ a c).2 := by
  simp [ClipPropertyChanged.do_, ClipPropertyChanged.undo, propSet_propSet_same]

theorem roundTrip_trackElementAdded (a : TrackElementAdded) (c : Clip)
    (ignore : List String) (w : TrackElementChildPropertyTracker) (n n2 : Nat)
    (hnd : ((a.asset.pspecs.map Prod.fst).map child_property_name).Nodup)
    (hps : ∀ kv ∈ a.track_element_props, ∃ p, p ∈ a.asset.pspecs.map Prod.fst ∧
            kv.1 = child_property_name p ∧ p.writable = true ∧ p.name ∉ ignore)
    (hn : ∀ e ∈ c.elements, e.id ≠ n)
    (hw : (TrackElementChildPropertyTracker.getPropChangedFromTrackElement w n).isSome) :
    ∃ a2 c2,
      TrackElementAdded.undo (TrackElementAdded.do_ a c n).1
        (TrackElementAdded.do_ a c n).2 ignore w = some (a2, c2) ∧
      clipObs (TrackElementAdded.do_ a2 c2 n2).2 = clipObs (TrackElementAdded.do_ a c n).2 := by
  obtain ⟨pc, hpc⟩ := Option.isSome_iff_exists.1 hw
  have hE1id : (setChildProps (freshElem a.asset n) a.track_element_props).id = n := by
    rw [setChildProps_eq]
    rfl
  have hE1asset : (setChildProps (freshElem a.asset n) a.track_element_props).asset
      = a.asset := by
    rw [setChildProps_eq]
    rfl
  have hE1props : (setChildProps (freshElem a.asset n) a.track_element_props).props
      = applyProps (elemDefaults a.asset) a.track_element_props := by
    rw [setChildProps_eq]
    rfl
  have hE1active : (setChildProps (freshElem a.asset n) a.track_element_props).active
      = true := by
    rw [setChildProps_eq]
    rfl
  have hE1bindings : (setChildProps (freshElem a.asset n) a.track_element_props).bindings
      = [] := by
    rw [setChildProps_eq]
    rfl
  have hE1track : (setChildProps (freshElem a.asset n) a.track_element_props).track
      = none := by
    rw [setChildProps_eq]
    rfl
  have hfind : (c.elements ++ [setChildProps (freshElem a.asset n) a.track_element_props]).find?
      (fun e => e.id == n) = some (setChildProps (freshElem a.asset n) a.track_element_props) :=
    find_elem_append _ _ _ hn hE1id
  have hfilter : (c.elements ++
      [setChildProps (freshElem a.asset n) a.track_element_props]).filter
      (fun e => e.id ≠ n) = c.elements :=
    filter_elements_append _ _ _ hn hE1id
  have hobs : ∀ el2 : TrackElement, el2.asset = a.asset →
      el2.props = applyProps (elemDefaults a.asset) a.track_element_props →
      el2.active = true → el2.bindings = [] → el2.track = none →
      elemObs (setChildProps (freshElem a.asset n2)
        (pspecSelect (fun p => p.writable && decide (p.name ∉ ignore)) el2))
      = elemObs el2 := by
    intro el2 h1 h2 h3 h4 h5
    rw [setChildProps_eq]
    unfold elemObs
    dsimp only
    rw [h1, h2, h3, h4, h5]
    have hfa : (freshElem a.asset n2).asset = a.asset := rfl
    have hfp : (freshElem a.asset n2).props = elemDefaults a.asset := rfl
    have hfac : (freshElem a.asset n2).active = true := rfl
    have hfb : (freshElem a.asset n2).bindings = ([] : List String) := rfl
    have hft : (freshElem a.asset n2).track = (none : Option Nat) := rfl
    rw [hfa, hfp, hfac, hfb, hft,
        replay_capture_eq a.asset ignore a.track_element_props el2 h1 h2 hnd hps]
  refine ⟨_, _, trackElementAdded_undo_eq (TrackElementAdded.do_ a c n).1
      (TrackElementAdded.do_ a c n).2 ignore w n
      (setChildProps (freshElem a.asset n) a.track_element_props) pc rfl hfind hpc, ?_⟩
  show clipObs { (TrackElementAdded.do_ a c n).2 with elements :=
      ((c.elements ++ [setChildProps (freshElem a.asset n) a.track_element_props]).filter
        (fun e => e.id ≠ n)) ++
      [setChildProps (freshElem a.asset n2)
        (pspecSelect (fun p => p.writable && decide (p.name ∉ ignore))
          (setChildProps (freshElem a.asset n) a.track_element_props))] }
    = clipObs (TrackElementAdded.do_ a c n).2
  rw [hfilter, trackElementAdded_do_eq]
  unfold clipObs
  dsimp only
  rw [List.map_append, List.map_append, List.map_singleton, List.map_singleton,
      hobs (setChildProps (freshElem a.asset n) a.track_element_props)
        hE1asset hE1props hE1active hE1bindings hE1track]

theorem roundTrip_trackElementRemoved (a : TrackElementRemoved) (c : Clip)
    (ignore : List String) (w : TrackElementChildPropertyTracker) (eid n : Nat)
    (el : TrackElement)
    (ha : a.track_element = some eid)
    (hfind : c.elements.find? (fun e => e.id == eid) = some el)
    (hw1 : (TrackElementChildPropertyTracker.getPropChangedFromTrackElement w eid).isSome)
    (hn : ∀ e ∈ c.elements, e.id ≠ n)
    (hw2 : (TrackElementChildPropertyTracker.getPropChangedFromTrackElement w n).isSome) :
    ∃ a1 c1, TrackElementRemoved.do_ a c ignore w = some (a1, c1) ∧
    ∃ a3 c3, TrackElementRemoved.do_
        (TrackElementRemoved.undo a1 c1 n).1 (TrackElementRemoved.undo a1 c1 n).2 ignore w
        = some (a3, c3) ∧
      clipObs c3 = clipObs c1 := by
  obtain ⟨pc1, hpc1⟩ := Option.isSome_iff_exists.1 hw1
  obtain ⟨pc2, hpc2⟩ := Option.isSome_iff_exists.1 hw2
  refine ⟨_, _, trackElementRemoved_do_eq a c ignore w eid el pc1 ha hfind hpc1, ?_⟩
  have hn1 : ∀ e ∈ (clip_remove c eid).elements, e.id ≠ n :=
    fun e he => hn e (List.mem_of_mem_filter he)
  have hE2id : (setChildProps (freshElem a.asset n)
      (pspecSelect (fun p => p.writable && decide (p.name ∉ ignore)) el)).id = n := by
    rw [setChildProps_eq]
    rfl
  have hfind2 : ((clip_remove c eid).elements ++
      [setChildProps (freshElem a.asset n)
        (pspecSelect (fun p => p.writable && decide (p.name ∉ ignore)) el)]).find?
      (fun e => e.id == n) = some (setChildProps (freshElem a.asset n)
        (pspecSelect (fun p => p.writable && decide (p.name ∉ ignore)) el)) :=
    find_elem_append _ _ _ hn1 hE2id
  have hfilter2 : ((clip_remove c eid).elements ++
      [setChildProps (freshElem a.asset n)
        (pspecSelect (fun p => p.writable && decide (p.name ∉ ignore)) el)]).filter
      (fun e => e.id ≠ n) = (clip_remove c eid).elements :=
    filter_elements_append _ _ _ hn1 hE2id
  refine ⟨_, _, trackElementRemoved_do_eq _ _ ignore w n _ pc2 rfl hfind2 hpc2, ?_⟩
  exact congrArg (fun els => clipObs { clip_remove c eid with elements := els }) hfilter2

theorem roundTrip_clipAdded (a : ClipAdded) (l : Layer) (commits : Nat)
    (hc : ∀ c0 ∈ l.clips, c0.id ≠ a.clip.id) :
    (ClipAdded.do_
      (ClipAdded.undo (ClipAdded.do_ a l commits).1 (ClipAdded.do_ a l commits).2.1
        (ClipAdded.do_ a l commits).2.2).1
      (ClipAdded.undo (ClipAdded.do_ a l commits).1 (ClipAdded.do_ a l commits).2.1
        (ClipAdded.do_ a l commits).2.2).2.1
      (ClipAdded.undo (ClipAdded.do_ a l commits).1 (ClipAdded.do_ a l commits).2.1
        (ClipAdded.do_ a l commits).2.2).2.2).2.1
    = (ClipAdded.do_ a l commits).2.1 := by
  have hfilter : (l.clips ++ [{ { a.clip with name := none } with
      name := some (freshClipName l) }]).filter (fun c0 => c0.id ≠ a.clip.id) = l.clips :=
    filter_clips_append _ _ _ hc rfl
  simp only [ClipAdded.do_, ClipAdded.undo, layer_add_clip, layer_remove_clip]
  rw [hfilter]

theorem roundTrip_clipRemoved (a : ClipRemoved) (l : Layer) (commits : Nat) :
    (ClipRemoved.do_
      (ClipRemoved.undo (ClipRemoved.do_ a l commits).1 (ClipRemoved.do_ a l commits).2.1
        (ClipRemoved.do_ a l commits).2.2).1
      (ClipRemoved.undo (ClipRemoved.do_ a l commits).1 (ClipRemoved.do_ a l commits).2.1
        (ClipRemoved.do_ a l commits).2.2).2.1
      (ClipRemoved.undo (ClipRemoved.do_ a l commits).1 (ClipRemoved.do_ a l commits).2.1
        (ClipRemoved.do_ a l commits).2.2).2.2).2.1
    = (ClipRemoved.do_ a l commits).2.1 := by
  simp only [ClipRemoved.do_, ClipRemoved.undo, layer_add_clip, layer_remove_clip]
  congr 1
  exact filter_clips_append_idem l.clips _ a.clip.id rfl

theorem roundTrip_layerAdded (a : LayerAdded) (tl : Timeline)
    (hl : ∀ l0 ∈ tl.layers, l0.id ≠ a.ges_layer.id) :
    ((LayerAdded.do_
      (LayerAdded.undo (LayerAdded.do_ a tl).1 (LayerAdded.do_ a tl).2).1
      (LayerAdded.undo (LayerAdded.do_ a tl).1 (LayerAdded.do_ a tl).2).2).2).layers
    = ((LayerAdded.do_ a tl).2).layers := by
  have hfilter : (tl.layers ++ [a.ges_layer]).filter (fun l0 => l0.id ≠ a.ges_layer.id)
      = tl.layers :=
    filter_layers_append _ _ _ hl rfl
  simp only [LayerAdded.do_, LayerAdded.undo, timeline_add_layer, timeline_remove_layer,
             commit_timeline]
  rw [hfilter]

theorem roundTrip_layerRemoved (a : LayerRemoved) (tl : Timeline) :
    ((LayerRemoved.do_
      (LayerRemoved.undo (LayerRemoved.do_ a tl).1 (LayerRemoved.do_ a tl).2).1
      (LayerRemoved.undo (LayerRemoved.do_ a tl).1 (LayerRemoved.do_ a tl).2).2).2).layers
    = ((LayerRemoved.do_ a tl).2).layers := by
  have hfilter : ((tl.layers.filter (fun l0 : Layer => l0.id ≠ a.ges_layer.id)) ++
      [a.ges_layer]).filter (fun l0 : Layer => l0.id ≠ a.ges_layer.id)
      = tl.layers.filter (fun l0 : Layer => l0.id ≠ a.ges_layer.id) :=
    filter_layers_append_idem _ _ _ rfl
  simp only [LayerRemoved.do_, LayerRemoved.undo, timeline_add_layer, timeline_remove_layer,
             commit_timeline]
  rw [hfilter]

theorem roundTrip_layerMoved (a : LayerMoved) (tl : Timeline) :
    (LayerMoved.do_
      (LayerMoved.undo (LayerMoved.do_ a tl).1 (LayerMoved.do_ a tl).2).1
      (LayerMoved.undo (LayerMoved.do_ a tl).1 (LayerMoved.do_ a tl).2).2).2
    = (LayerMoved.do_ a tl).2 := by
  simp only [LayerMoved.do_, LayerMoved.undo]
  congr 1
  rw [List.map_map, List.map_map]
  apply List.map_congr_left
  intro x _
  by_cases h : x.id = a.ges_layer <;> simp [Function.comp, h]

theorem roundTrip_controlSourceValueAdded (a : ControlSourceValueAdded) (s : ControlSource)
    (h : csSorted s = true) :
    (ControlSourceValueAdded.do_
      (ControlSourceValueAdded.undo (ControlSourceValueAdded.do_ a s).1
        (ControlSourceValueAdded.do_ a s).2).1
      (ControlSourceValueAdded.undo (ControlSourceValueAdded.do_ a s).1
        (ControlSourceValueAdded.do_ a s).2).2).2
    = (ControlSourceValueAdded.do_ a s).2 := by
  simp only [ControlSourceValueAdded.do_, ControlSourceValueAdded.undo]
  rw [cs_unset_cs_set, cs_set_cs_unset _ _ _ h]

theorem roundTrip_controlSourceValueRemoved (a : ControlSourceValueRemoved)
    (s : ControlSource) :
    (ControlSourceValueRemoved.do_
      (ControlSourceValueRemoved.undo (ControlSourceValueRemoved.do_ a s).1
        (ControlSourceValueRemoved.do_ a s).2).1
      (ControlSourceValueRemoved.undo (ControlSourceValueRemoved.do_ a s).1
        (ControlSourceValueRemoved.do_ a s).2).2).2
    = (ControlSourceValueRemoved.do_ a s).2 := by
  simp only [ControlSourceValueRemoved.do_, ControlSourceValueRemoved.undo]
  rw [cs_unset_cs_set, cs_unset_idem]

theorem roundTrip_controlSourceKeyframeChanged (a : ControlSourceKeyframeChanged)
    (s : ControlSource) (h : a.old_snapshot.1 = a.new_snapshot.1) :
    (ControlSourceKeyframeChanged.do_
      (ControlSourceKeyframeChanged.undo (ControlSourceKeyframeChanged.do_ a s).1
        (ControlSourceKeyframeChanged.do_ a s).2).1
      (ControlSourceKeyframeChanged.undo (ControlSourceKeyframeChanged.do_ a s).1
        (ControlSourceKeyframeChanged.do_ a s).2).2).2
    = (ControlSourceKeyframeChanged.do_ a s).2 := by
  simp only [ControlSourceKeyframeChanged.do_, ControlSourceKeyframeChanged.undo,
             applySnapshot]
  rw [h, cs_set_cs_set_same, cs_set_cs_set_same]

theorem roundTrip_activePropertyChanged (a : ActivePropertyChanged) (e : Bool) :
    (ActivePropertyChanged.do_
      (ActivePropertyChanged.undo (ActivePropertyChanged.do_ a e).1
        (ActivePropertyChanged.do_ a e).2).1
      (ActivePropertyChanged.undo (ActivePropertyChanged.do_ a e).1
        (ActivePropertyChanged.do_ a e).2).2).2
    = (ActivePropertyChanged.do_ a e).2 := by
  simp [ActivePropertyChanged.do_, ActivePropertyChanged.undo]

/-- C1: For every Action type exposed by the module (TrackElementPropertyChanged,
TrackElementAdded, TrackElementRemoved, ClipPropertyChanged, ClipAdded,
ClipRemoved, LayerAdded, LayerRemoved, LayerMoved, ControlSourceValueAdded,
ControlSourceValueRemoved, ControlSourceKeyframeChanged, ActivePropertyChanged),
starting from any state in which do() is applicable, the sequence
do(); undo(); do() leaves the observed model state (layers, clips, track
elements, properties, keyframes) identical to the state after a single do().
Observed clip state is taken up to track-element object identity (a redo
deliberately reinstantiates a fresh element), and the external commit-request
counter is not model state. Applicability of do() is expressed by the
hypotheses of each conjunct: freshly allocated identities are really fresh, the
referenced objects are present, captured property lists hold writable
non-ignored declared properties (as every constructed action does), control
sources are timestamp-sorted, and a keyframe-change action carries snapshots at
one timestamp (as every action built by KeyframeChangeTracker does). -/
theorem c1_round_trip :
    (∀ (a : TrackElementPropertyChanged) (el : TrackElement),
      (TrackElementPropertyChanged.do_
        (TrackElementPropertyChanged.undo
          (TrackElementPropertyChanged.do_ a el).1
          (TrackElementPropertyChanged.do_ a el).2).1
        (TrackElementPropertyChanged.undo
          (TrackElementPropertyChanged.do_ a el).1
          (TrackElementPropertyChanged.do_ a el).2).2).2
      = (TrackElementPropertyChanged.do_ a el).2) ∧
    (∀ (a : TrackElementAdded) (c : Clip)
      (ignore : List String) (w : TrackElementChildPropertyTracker) (n n2 : Nat),
      ((a.asset.pspecs.map Prod.fst).map child_property_name).Nodup →
      (∀ kv ∈ a.track_element_props, ∃ p, p ∈ a.asset.pspecs.map Prod.fst ∧
              kv.1 = child_property_name p ∧ p.writable = true ∧ p.name ∉ ignore) →
      (∀ e ∈ c.elements, e.id ≠ n) →
      (TrackElementChildPropertyTracker.getPropChangedFromTrackElement w n).isSome →
      ∃ a2 c2,
        TrackElementAdded.undo (TrackElementAdded.do_ a c n).1
          (TrackElementAdded.do_ a c n).2 ignore w = some (a2, c2) ∧
        clipObs (TrackElementAdded.do_ a2 c2 n2).2
          = clipObs (TrackElementAdded.do_ a c n).2) ∧
    (∀ (a : TrackElementRemoved) (c : Clip)
      (ignore : List String) (w : TrackElementChildPropertyTracker) (eid n : Nat)
      (el : TrackElement),
      a.track_element = some eid →
      c.elements.find? (fun e => e.id == eid) = some el →
      (TrackElementChildPropertyTracker.getPropChangedFromTrackElement w eid).isSome →
      (∀ e ∈ c.elements, e.id ≠ n) →
      (TrackElementChildPropertyTracker.getPropChangedFromTrackElement w n).isSome →
      ∃ a1 c1, TrackElementRemoved.do_ a c ignore w = some (a1, c1) ∧
      ∃ a3 c3, TrackElementRemoved.do_
          (TrackElementRemoved.undo a1 c1 n).1 (TrackElementRemoved.undo a1 c1 n).2 ignore w
          = some (a3, c3) ∧
        clipObs c3 = clipObs c1) ∧
    (∀ (a : ClipPropertyChanged) (c : Clip),
      (ClipPropertyChanged.do_
        (ClipPropertyChanged.undo
          (ClipPropertyChanged.do_ a c).1 (ClipPropertyChanged.do_ a c).2).1
        (ClipPropertyChanged.undo
          (ClipPropertyChanged.do_ a c).1 (ClipPropertyChanged.do_ a c).2).2).2
      = (ClipPropertyChanged.do_ a c).2) ∧
    (∀ (a : ClipAdded) (l : Layer) (commits : Nat),
      (∀ c0 ∈ l.clips, c0.id ≠ a.clip.id) →
      (ClipAdded.do_
        (ClipAdded.undo (ClipAdded.do_ a l commits).1 (ClipAdded.do_ a l commits).2.1
          (ClipAdded.do_ a l commits).2.2).1
        (ClipAdded.undo (ClipAdded.do_ a l commits).1 (ClipAdded.do_ a l commits).2.1
          (ClipAdded.do_ a l commits).2.2).2.1
        (ClipAdded.undo (ClipAdded.do_ a l commits).1 (ClipAdded.do_ a l commits).2.1
          (ClipAdded.do_ a l commits).2.2).2.2).2.1
      = (ClipAdded.do_ a l commits).2.1) ∧
    (∀ (a : ClipRemoved) (l : Layer) (commits : Nat),
      (ClipRemoved.do_
        (ClipRemoved.undo (ClipRemoved.do_ a l commits).1 (ClipRemoved.do_ a l commits).2.1
          (ClipRemoved.do_ a l commits).2.2).1
        (ClipRemoved.undo (ClipRemoved.do_ a l commits).1 (ClipRemoved.do_ a l commits).2.1
          (ClipRemoved.do_ a l commits).2.2).2.1
        (ClipRemoved.undo (ClipRemoved.do_ a l commits).1 (ClipRemoved.do_ a l commits).2.1
          (ClipRemoved.do_ a l commits).2.2).2.2).2.1
      = (ClipRemoved.do_ a l commits).2.1) ∧
    (∀ (a : LayerAdded) (tl : Timeline),
      (∀ l0 ∈ tl.layers, l0.id ≠ a.ges_layer.id) →
      ((LayerAdded.do_
        (LayerAdded.undo (LayerAdded.do_ a tl).1 (LayerAdded.do_ a tl).2).1
        (LayerAdded.undo (LayerAdded.do_ a tl).1 (LayerAdded.do_ a tl).2).2).2).layers
      = ((LayerAdded.do_ a tl).2).layers) ∧
    (∀ (a : LayerRemoved) (tl : Timeline),
      ((LayerRemoved.do_
        (LayerRemoved.undo (LayerRemoved.do_ a tl).1 (LayerRemoved.do_ a tl).2).1
        (LayerRemoved.undo (LayerRemoved.do_ a tl).1 (LayerRemoved.do_ a tl).2).2).2).layers
      = ((LayerRemoved.do_ a tl).2).layers) ∧
    (∀ (a : LayerMoved) (tl : Timeline),
      (LayerMoved.do_
        (LayerMoved.undo (LayerMoved.do_ a tl).1 (LayerMoved.do_ a tl).2).1
        (LayerMoved.undo (LayerMoved.do_ a tl).1 (LayerMoved.do_ a tl).2).2).2
      = (LayerMoved.do_ a tl).2) ∧
    (∀ (a : ControlSourceValueAdded) (s : ControlSource),
      csSorted s = true →
      (ControlSourceValueAdded.do_
        (ControlSourceValueAdded.undo (ControlSourceValueAdded.do_ a s).1
          (ControlSourceValueAdded.do_ a s).2).1
        (ControlSourceValueAdded.undo (ControlSourceValueAdded.do_ a s).1
          (ControlSourceValueAdded.do_ a s).2).2).2
      = (ControlSourceValueAdded.do_ a s).2) ∧
    (∀ (a : ControlSourceValueRemoved) (s : ControlSource),
      (ControlSourceValueRemoved.do_
        (ControlSourceValueRemoved.undo (ControlSourceValueRemoved.do_ a s).1
          (ControlSourceValueRemoved.do_ a s).2).1
        (ControlSourceValueRemoved.undo (ControlSourceValueRemoved.do_ a s).1
          (ControlSourceValueRemoved.do_ a s).2).2).2
      = (ControlSourceValueRemoved.do_ a s).2) ∧
    (∀ (a : ControlSourceKeyframeChanged) (s : ControlSource),
      a.old_snapshot.1 = a.new_snapshot.1 →
      (ControlSourceKeyframeChanged.do_
        (ControlSourceKeyframeChanged.undo (ControlSourceKeyframeChanged.do_ a s).1
          (ControlSourceKeyframeChanged.do_ a s).2).1
        (ControlSourceKeyframeChanged.undo (ControlSourceKeyframeChanged.do_ a s).1
          (ControlSourceKeyframeChanged.do_ a s).2).2).2
      = (ControlSourceKeyframeChanged.do_ a s).2) ∧
    (∀ (a : ActivePropertyChanged) (e : Bool),
      (ActivePropertyChanged.do_
        (ActivePropertyChanged.undo (ActivePropertyChanged.do_ a e).1
          (ActivePropertyChanged.do_ a e).2).1
        (ActivePropertyChanged.undo (ActivePropertyChanged.do_ a e).1
          (ActivePropertyChanged.do_ a e).2).2).2
      = (ActivePropertyChanged.do_ a e).2) :=
  ⟨roundTrip_trackElementPropertyChanged,
   roundTrip_trackElementAdded,
   roundTrip_trackElementRemoved,
   roundTrip_clipPropertyChanged,
   roundTrip_clipAdded,
   roundTrip_clipRemoved,
   roundTrip_layerAdded,
   roundTrip_layerRemoved,
   roundTrip_layerMoved,
   roundTrip_controlSourceValueAdded,
   roundTrip_controlSourceValueRemoved,
   roundTrip_controlSourceKeyframeChanged,
   roundTrip_activePropertyChanged⟩

/-- Witness for C1: the thirteen round trips evaluated at concrete actions and
states, with every applicability hypothesis discharged by computation. -/
theorem c1_round_trip_witness :
    ((TrackElementPropertyChanged.do_
      (TrackElementPropertyChanged.undo
        (TrackElementPropertyChanged.do_ ⟨1, "GstVolume::volume", 10, 3, AStatus.pending⟩ wElem).1
        (TrackElementPropertyChanged.do_ ⟨1, "GstVolume::volume", 10, 3, AStatus.pending⟩ wElem).2).1
      (TrackElementPropertyChanged.undo
        (TrackElementPropertyChanged.do_ ⟨1, "GstVolume::volume", 10, 3, AStatus.pending⟩ wElem).1
        (TrackElementPropertyChanged.do_ ⟨1, "GstVolume::volume", 10, 3, AStatus.pending⟩ wElem).2).2).2
      = (TrackElementPropertyChanged.do_ ⟨1, "GstVolume::volume", 10, 3, AStatus.pending⟩ wElem).2) ∧
    (∃ a2 c2,
      TrackElementAdded.undo (TrackElementAdded.do_ (TrackElementAdded.init wElem) wClip 7).1
        (TrackElementAdded.do_ (TrackElementAdded.init wElem) wClip 7).2 wIgnore wWatcher
        = some (a2, c2) ∧
      clipObs (TrackElementAdded.do_ a2 c2 8).2
        = clipObs (TrackElementAdded.do_ (TrackElementAdded.init wElem) wClip 7).2) ∧
    (∃ a1 c1, TrackElementRemoved.do_ (TrackElementRemoved.init wElem) wClip wIgnore wWatcher
        = some (a1, c1) ∧
      ∃ a3 c3, TrackElementRemoved.do_
          (TrackElementRemoved.undo a1 c1 8).1 (TrackElementRemoved.undo a1 c1 8).2
          wIgnore wWatcher = some (a3, c3) ∧
        clipObs c3 = clipObs c1) ∧
    ((ClipPropertyChanged.do_
      (ClipPropertyChanged.undo
        (ClipPropertyChanged.do_ ⟨"start", 0, 5, AStatus.pending⟩ wClip).1
        (ClipPropertyChanged.do_ ⟨"start", 0, 5, AStatus.pending⟩ wClip).2).1
      (ClipPropertyChanged.undo
        (ClipPropertyChanged.do_ ⟨"start", 0, 5, AStatus.pending⟩ wClip).1
        (ClipPropertyChanged.do_ ⟨"start", 0, 5, AStatus.pending⟩ wClip).2).2).2
      = (ClipPropertyChanged.do_ ⟨"start", 0, 5, AStatus.pending⟩ wClip).2) ∧
    ((ClipAdded.do_
      (ClipAdded.undo (ClipAdded.do_ ⟨⟨9, some "c9", [], []⟩, AStatus.pending⟩ wLayer 0).1
        (ClipAdded.do_ ⟨⟨9, some "c9", [], []⟩, AStatus.pending⟩ wLayer 0).2.1
        (ClipAdded.do_ ⟨⟨9, some "c9", [], []⟩, AStatus.pending⟩ wLayer 0).2.2).1
      (ClipAdded.undo (ClipAdded.do_ ⟨⟨9, some "c9", [], []⟩, AStatus.pending⟩ wLayer 0).1
        (ClipAdded.do_ ⟨⟨9, some "c9", [], []⟩, AStatus.pending⟩ wLayer 0).2.1
        (ClipAdded.do_ ⟨⟨9, some "c9", [], []⟩, AStatus.pending⟩ wLayer 0).2.2).2.1
      (ClipAdded.undo (ClipAdded.do_ ⟨⟨9, some "c9", [], []⟩, AStatus.pending⟩ wLayer 0).1
        (ClipAdded.do_ ⟨⟨9, some "c9", [], []⟩, AStatus.pending⟩ wLayer 0).2.1
        (ClipAdded.do_ ⟨⟨9, some "c9", [], []⟩, AStatus.pending⟩ wLayer 0).2.2).2.2).2.1
      = (ClipAdded.do_ ⟨⟨9, some "c9", [], []⟩, AStatus.pending⟩ wLayer 0).2.1) ∧
    ((ClipRemoved.do_
      (ClipRemoved.undo (ClipRemoved.do_ ⟨wClip, AStatus.pending⟩ wLayer 0).1
        (ClipRemoved.do_ ⟨wClip, AStatus.pending⟩ wLayer 0).2.1
        (ClipRemoved.do_ ⟨wClip, AStatus.pending⟩ wLayer 0).2.2).1
      (ClipRemoved.undo (ClipRemoved.do_ ⟨wClip, AStatus.pending⟩ wLayer 0).1
        (ClipRemoved.do_ ⟨wClip, AStatus.pending⟩ wLayer 0).2.1
        (ClipRemoved.do_ ⟨wClip, AStatus.pending⟩ wLayer 0).2.2).2.1
      (ClipRemoved.undo (ClipRemoved.do_ ⟨wClip, AStatus.pending⟩ wLayer 0).1
        (ClipRemoved.do_ ⟨wClip, AStatus.pending⟩ wLayer 0).2.1
        (ClipRemoved.do_ ⟨wClip, AStatus.pending⟩ wLayer 0).2.2).2.2).2.1
      = (ClipRemoved.do_ ⟨wClip, AStatus.pending⟩ wLayer 0).2.1) ∧
    (((LayerAdded.do_
      (LayerAdded.undo (LayerAdded.do_ ⟨⟨4, 1, false, []⟩, AStatus.pending⟩ wTimeline).1
        (LayerAdded.do_ ⟨⟨4, 1, false, []⟩, AStatus.pending⟩ wTimeline).2).1
      (LayerAdded.undo (LayerAdded.do_ ⟨⟨4, 1, false, []⟩, AStatus.pending⟩ wTimeline).1
        (LayerAdded.do_ ⟨⟨4, 1, false, []⟩, AStatus.pending⟩ wTimeline).2).2).2).layers
      = ((LayerAdded.do_ ⟨⟨4, 1, false, []⟩, AStatus.pending⟩ wTimeline).2).layers) ∧
    (((LayerRemoved.do_
      (LayerRemoved.undo (LayerRemoved.do_ ⟨wLayer, AStatus.pending⟩ wTimeline).1
        (LayerRemoved.do_ ⟨wLayer, AStatus.pending⟩ wTimeline).2).1
      (LayerRemoved.undo (LayerRemoved.do_ ⟨wLayer, AStatus.pending⟩ wTimeline).1
        (LayerRemoved.do_ ⟨wLayer, AStatus.pending⟩ wTimeline).2).2).2).layers
      = ((LayerRemoved.do_ ⟨wLayer, AStatus.pending⟩ wTimeline).2).layers) ∧
    ((LayerMoved.do_
      (LayerMoved.undo (LayerMoved.do_ ⟨3, 0, 2, AStatus.pending⟩ wTimeline).1
        (LayerMoved.do_ ⟨3, 0, 2, AStatus.pending⟩ wTimeline).2).1
      (LayerMoved.undo (LayerMoved.do_ ⟨3, 0, 2, AStatus.pending⟩ wTimeline).1
        (LayerMoved.do_ ⟨3, 0, 2, AStatus.pending⟩ wTimeline).2).2).2
      = (LayerMoved.do_ ⟨3, 0, 2, AStatus.pending⟩ wTimeline).2) ∧
    ((ControlSourceValueAdded.do_
      (ControlSourceValueAdded.undo
        (ControlSourceValueAdded.do_ ⟨1, (5, 7), "GstVolume::volume", AStatus.pending⟩
          [(2, 4), (9, 1)]).1
        (ControlSourceValueAdded.do_ ⟨1, (5, 7), "GstVolume::volume", AStatus.pending⟩
          [(2, 4), (9, 1)]).2).1
      (ControlSourceValueAdded.undo
        (ControlSourceValueAdded.do_ ⟨1, (5, 7), "GstVolume::volume", AStatus.pending⟩
          [(2, 4), (9, 1)]).1
        (ControlSourceValueAdded.do_ ⟨1, (5, 7), "GstVolume::volume", AStatus.pending⟩
          [(2, 4), (9, 1)]).2).2).2
      = (ControlSourceValueAdded.do_ ⟨1, (5, 7), "GstVolume::volume", AStatus.pending⟩
          [(2, 4), (9, 1)]).2) ∧
    ((ControlSourceValueRemoved.do_
      (ControlSourceValueRemoved.undo
        (ControlSourceValueRemoved.do_ ⟨1, (5, 7), "GstVolume::volume", AStatus.pending⟩
          [(5, 7)]).1
        (ControlSourceValueRemoved.do_ ⟨1, (5, 7), "GstVolume::volume", AStatus.pending⟩
          [(5, 7)]).2).1
      (ControlSourceValueRemoved.undo
        (ControlSourceValueRemoved.do_ ⟨1, (5, 7), "GstVolume::volume", AStatus.pending⟩
          [(5, 7)]).1
        (ControlSourceValueRemoved.do_ ⟨1, (5, 7), "GstVolume::volume", AStatus.pending⟩
          [(5, 7)]).2).2).2
      = (ControlSourceValueRemoved.do_ ⟨1, (5, 7), "GstVolume::volume", AStatus.pending⟩
          [(5, 7)]).2) ∧
    ((ControlSourceKeyframeChanged.do_
      (ControlSourceKeyframeChanged.undo
        (ControlSourceKeyframeChanged.do_ ⟨(5, 7), (5, 9), AStatus.pending⟩ [(2, 4)]).1
        (ControlSourceKeyframeChanged.do_ ⟨(5, 7), (5, 9), AStatus.pending⟩ [(2, 4)]).2).1
      (ControlSourceKeyframeChanged.undo
        (ControlSourceKeyframeChanged.do_ ⟨(5, 7), (5, 9), AStatus.pending⟩ [(2, 4)]).1
        (ControlSourceKeyframeChanged.do_ ⟨(5, 7), (5, 9), AStatus.pending⟩ [(2, 4)]).2).2).2
      = (ControlSourceKeyframeChanged.do_ ⟨(5, 7), (5, 9), AStatus.pending⟩ [(2, 4)]).2) ∧
    ((ActivePropertyChanged.do_
      (ActivePropertyChanged.undo
        (ActivePropertyChanged.do_ ⟨true, AStatus.pending⟩ false).1
        (ActivePropertyChanged.do_ ⟨true, AStatus.pending⟩ false).2).1
      (ActivePropertyChanged.undo
        (ActivePropertyChanged.do_ ⟨true, AStatus.pending⟩ false).1
        (ActivePropertyChanged.do_ ⟨true, AStatus.pending⟩ false).2).2).2
      = (ActivePropertyChanged.do_ ⟨true, AStatus.pending⟩ false).2) :=
  ⟨c1_round_trip.1 ⟨1, "GstVolume::volume", 10, 3, AStatus.pending⟩ wElem,
   c1_round_trip.2.1 (TrackElementAdded.init wElem) wClip wIgnore wWatcher 7 8
     (by decide) (by decide) (by decide) (by decide),
   c1_round_trip.2.2.1 (TrackElementRemoved.init wElem) wClip wIgnore wWatcher 1 8 wElem
     (by decide) (by decide) (by decide) (by decide) (by decide),
   c1_round_trip.2.2.2.1 ⟨"start", 0, 5, AStatus.pending⟩ wClip,
   c1_round_trip.2.2.2.2.1 ⟨⟨9, some "c9", [], []⟩, AStatus.pending⟩ wLayer 0 (by decide),
   c1_round_trip.2.2.2.2.2.1 ⟨wClip, AStatus.pending⟩ wLayer 0,
   c1_round_trip.2.2.2.2.2.2.1 ⟨⟨4, 1, false, []⟩, AStatus.pending⟩ wTimeline (by decide),
   c1_round_trip.2.2.2.2.2.2.2.1 ⟨wLayer, AStatus.pending⟩ wTimeline,
   c1_round_trip.2.2.2.2.2.2.2.2.1 ⟨3, 0, 2, AStatus.pending⟩ wTimeline,
   c1_round_trip.2.2.2.2.2.2.2.2.2.1 ⟨1, (5, 7), "GstVolume::volume", AStatus.pending⟩
     [(2, 4), (9, 1)] (by decide),
   c1_round_trip.2.2.2.2.2.2.2.2.2.2.1 ⟨1, (5, 7), "GstVolume::volume", AStatus.pending⟩
     [(5, 7)],
   c1_round_trip.2.2.2.2.2.2.2.2.2.2.2.1 ⟨(5, 7), (5, 9), AStatus.pending⟩ [(2, 4)]
     (by decide),
   c1_round_trip.2.2.2.2.2.2.2.2.2.2.2.2 ⟨true, AStatus.pending⟩ false⟩

/-- C2 (code bug evaluation): the spec's three-state machine demands that every
do() marks the action done and every undo() marks it undone, but the code of
ControlSourceValueRemoved calls _undone() inside do and _done() inside undo,
and LayerAdded, LayerRemoved and LayerMoved never call either marker — their
do/undo leave the action's status untouched. -/
theorem c2_marker_state_machine :
    (∀ (a : ControlSourceValueRemoved) (s : ControlSource),
      (ControlSourceValueRemoved.do_ a s).1.status = AStatus.undone ∧
      (ControlSourceValueRemoved.undo a s).1.status = AStatus.done) ∧
    (∀ (a : LayerAdded) (tl : Timeline),
      (LayerAdded.do_ a tl).1.status = a.status ∧
      (LayerAdded.undo a tl).1.status = a.status) ∧
    (∀ (a : LayerRemoved) (tl : Timeline),
      (LayerRemoved.do_ a tl).1.status = a.status ∧
      (LayerRemoved.undo a tl).1.status = a.status) ∧
    (∀ (a : LayerMoved) (tl : Timeline),
      (LayerMoved.do_ a tl).1.status = a.status ∧
      (LayerMoved.undo a tl).1.status = a.status) :=
  ⟨fun _ _ => ⟨rfl, rfl⟩, fun _ _ => ⟨rfl, rfl⟩, fun _ _ => ⟨rfl, rfl⟩,
   fun _ _ => ⟨rfl, rfl⟩⟩

/-- C3: on a child-property-changed notification for a tracked element, an
active ControlBinding on the property suppresses logging (nothing is pushed and
the tracker, including the snapshot, is unchanged); otherwise exactly one
TrackElementPropertyChanged carrying (old value from the snapshot, new live
value) is pushed and the snapshot entry is updated to the live value. -/
theorem c3_animated_property_suppression
    (tr : TrackElementChildPropertyTracker) (el : TrackElement) (pspec : PSpec) :
    (child_property_name pspec ∈ el.bindings →
      TrackElementChildPropertyTracker.propertyChangedCb tr el pspec = some (tr, [])) ∧
    (child_property_name pspec ∉ el.bindings →
      ∀ snap old_value,
        assocGet tr.tracked_track_elements el.id = some snap →
        propGet snap (child_property_name pspec) = some old_value →
        TrackElementChildPropertyTracker.propertyChangedCb tr el pspec =
          some ({ tr with
                    tracked_track_elements := assocSet tr.tracked_track_elements el.id (propSet snap (child_property_name pspec) ((get_child_property el (child_property_name pspec)).2)) },
                [{ track_element := el.id, property_name := child_property_name pspec,
                   old_value := old_value,
                   new_value := (get_child_property el (child_property_name pspec)).2,
                   status := AStatus.pending }])) := by
  constructor
  · intro h
    unfold TrackElementChildPropertyTracker.propertyChangedCb
    rw [if_pos h]
  · intro h snap old_value hsnap hget
    unfold TrackElementChildPropertyTracker.propertyChangedCb
    rw [if_neg h]
    dsimp only
    rw [hsnap]
    dsimp only
    rw [hget]

/-- Witness for C3: both branches evaluated concretely — the same property
change is suppressed when the property is bound to a control source, and pushed
as exactly one action with (snapshot old, live new) when it is not. -/
theorem c3_animated_property_suppression_witness :
    (TrackElementChildPropertyTracker.propertyChangedCb wWatcher
      { wElem with props := [("GstVolume::volume", 25), ("GstVolume::qos", 0)],
                   bindings := ["GstVolume::volume"] } wPSpec
      = some (wWatcher, [])) ∧
    (TrackElementChildPropertyTracker.propertyChangedCb wWatcher
      { wElem with props := [("GstVolume::volume", 25), ("GstVolume::qos", 0)] } wPSpec
      = some ({ wWatcher with
                  tracked_track_elements := assocSet wWatcher.tracked_track_elements 1 (propSet [("GstVolume::volume", 10)] "GstVolume::volume" 25) },
              [{ track_element := 1, property_name := "GstVolume::volume",
                 old_value := 10, new_value := 25, status := AStatus.pending }])) :=
  ⟨(c3_animated_property_suppression wWatcher
      { wElem with props := [("GstVolume::volume", 25), ("GstVolume::qos", 0)],
                   bindings := ["GstVolume::volume"] } wPSpec).1 (by decide),
   (c3_animated_property_suppression wWatcher
      { wElem with props := [("GstVolume::volume", 25), ("GstVolume::qos", 0)] } wPSpec).2
     (by decide) [("GstVolume::volume", 10)] 10 (by decide) (by decide)⟩

/-- C4: addTrackElement on an untracked element with no track yet does no
discovery — it only subscribes to notify::track; the attachment callback then
runs discovery once and unsubscribes: afterwards the notify::track subscription
is gone, deep-notify is connected, other tracked elements are untouched, and
the element's snapshot holds the current value of every declared non-ignored
child property while ignored names are absent. -/
theorem c4_deferred_discovery
    (tr : TrackElementChildPropertyTracker) (ignore : List String) (el el2 : TrackElement)
    (huntracked : assocGet tr.tracked_track_elements el.id = none)
    (hnotrack : el.track = none)
    (hid : el2.id = el.id)
    (hnd : ((list_children_properties el2).map child_property_name).Nodup) :
    (TrackElementChildPropertyTracker.addTrackElement tr ignore el =
      { tr with track_subs := tr.track_subs ++ [el.id] }) ∧
    (el.id ∉ (TrackElementChildPropertyTracker.trackElementTrackSetCb
        (TrackElementChildPropertyTracker.addTrackElement tr ignore el)
        ignore el2).track_subs) ∧
    ((TrackElementChildPropertyTracker.trackElementTrackSetCb
        (TrackElementChildPropertyTracker.addTrackElement tr ignore el)
        ignore el2).deep_notify_subs = tr.deep_notify_subs ++ [el2.id]) ∧
    (∀ j, j ≠ el.id →
      assocGet (TrackElementChildPropertyTracker.trackElementTrackSetCb
        (TrackElementChildPropertyTracker.addTrackElement tr ignore el)
        ignore el2).tracked_track_elements j = assocGet tr.tracked_track_elements j) ∧
    (∃ snap,
      assocGet (TrackElementChildPropertyTracker.trackElementTrackSetCb
        (TrackElementChildPropertyTracker.addTrackElement tr ignore el)
        ignore el2).tracked_track_elements el.id = some snap ∧
      (∀ p, p ∈ list_children_properties el2 → p.name ∉ ignore →
        propGet snap (child_property_name p)
          = some ((get_child_property el2 (child_property_name p)).2)) ∧
      (∀ p, p ∈ list_children_properties el2 → p.name ∈ ignore →
        propGet snap (child_property_name p) = none)) := by
  have hadd : TrackElementChildPropertyTracker.addTrackElement tr ignore el =
      { tr with track_subs := tr.track_subs ++ [el.id] } := by
    unfold TrackElementChildPropertyTracker.addTrackElement
    rw [huntracked]
    simp [hnotrack]
  have hget : ∀ k, propGet (applyProps []
      (pspecSelect (fun p => decide (p.name ∉ ignore)) el2)) k
      = propGet (pspecSelect (fun p => decide (p.name ∉ ignore)) el2) k := by
    intro k
    rw [propGet_applyProps]
    have hnil : propGet [] k = none := rfl
    rw [hnil, optOr_none_right,
        propGet_reverse_of_nodup _ k (propKeys_pspecSelect_nodup _ el2 hnd)]
  rw [hadd]
  refine ⟨rfl, ?_, rfl, ?_, ?_⟩
  · intro hmem
    have hpred := (List.mem_filter.1 hmem).2
    rw [hid] at hpred
    exact absurd rfl (of_decide_eq_true hpred)
  · intro j hj
    show assocGet (assocSet tr.tracked_track_elements el2.id
      (applyProps [] (pspecSelect (fun p => decide (p.name ∉ ignore)) el2))) j
      = assocGet tr.tracked_track_elements j
    rw [assocGet_assocSet, if_neg]
    rw [hid]
    exact fun hh => hj hh.symm
  · refine ⟨applyProps [] (pspecSelect (fun p => decide (p.name ∉ ignore)) el2), ?_, ?_, ?_⟩
    · show assocGet (assocSet tr.tracked_track_elements el2.id
        (applyProps [] (pspecSelect (fun p => decide (p.name ∉ ignore)) el2))) el.id = _
      rw [assocGet_assocSet, if_pos hid]
    · intro p hp hpi
      rw [hget]
      exact propGet_pspecSelect_of_keep _ el2 p hnd hp (decide_eq_true hpi)
    · intro p hp hpi
      rw [hget]
      apply propGet_pspecSelect_of_not
      intro q hq hqp
      have hqeq : q = p := List.inj_on_of_nodup_map hnd hq hp hqp
      rw [hqeq]
      exact decide_eq_false (fun hn => hn hpi)

/-- Witness for C4: a concrete unattached element is registered, the attachment
notification fires, and the resulting snapshot is checked concretely. -/
theorem c4_deferred_discovery_witness :
    (TrackElementChildPropertyTracker.addTrackElement ⟨[], [], []⟩ wIgnore
      { wElem with id := 5, track := none } =
      { (⟨[], [], []⟩ : TrackElementChildPropertyTracker) with track_subs := [] ++ [5] }) ∧
    ((5 : Nat) ∉ (TrackElementChildPropertyTracker.trackElementTrackSetCb
        (TrackElementChildPropertyTracker.addTrackElement ⟨[], [], []⟩ wIgnore
          { wElem with id := 5, track := none })
        wIgnore { wElem with id := 5 }).track_subs) ∧
    ((TrackElementChildPropertyTracker.trackElementTrackSetCb
        (TrackElementChildPropertyTracker.addTrackElement ⟨[], [], []⟩ wIgnore
          { wElem with id := 5, track := none })
        wIgnore { wElem with id := 5 }).deep_notify_subs = [] ++ [5]) ∧
    (∀ j, j ≠ 5 →
      assocGet (TrackElementChildPropertyTracker.trackElementTrackSetCb
        (TrackElementChildPropertyTracker.addTrackElement ⟨[], [], []⟩ wIgnore
          { wElem with id := 5, track := none })
        wIgnore { wElem with id := 5 }).tracked_track_elements j = assocGet [] j) ∧
    (∃ snap,
      assocGet (TrackElementChildPropertyTracker.trackElementTrackSetCb
        (TrackElementChildPropertyTracker.addTrackElement ⟨[], [], []⟩ wIgnore
          { wElem with id := 5, track := none })
        wIgnore { wElem with id := 5 }).tracked_track_elements 5 = some snap ∧
      (∀ p, p ∈ list_children_properties { wElem with id := 5 } → p.name ∉ wIgnore →
        propGet snap (child_property_name p)
          = some ((get_child_property { wElem with id := 5 } (child_property_name p)).2)) ∧
      (∀ p, p ∈ list_children_properties { wElem with id := 5 } → p.name ∈ wIgnore →
        propGet snap (child_property_name p) = none)) :=
  c4_deferred_discovery ⟨[], [], []⟩ wIgnore { wElem with id := 5, track := none }
    { wElem with id := 5 } (by decide) (by decide) (by decide) (by decide)

/-- C5: TrackElementAdded.undo captures the full writable non-ignored
child-property set of the element at its pre-removal values, removes the
element from the clip, retrieves the watcher snapshot and drops the reference;
TrackElementAdded.do never reuses the old element — it instantiates a fresh
element (new identity) from the stored Asset and replays the captured
properties onto it. TrackElementRemoved applies the symmetric logic:
capture-then-remove in do, reinstantiate-then-restore in undo. -/
theorem c5_track_element_add_remove_policy :
    (∀ (a : TrackElementAdded) (c : Clip) (ignore : List String)
      (w : TrackElementChildPropertyTracker) (eid : Nat) (el : TrackElement)
      (pc : List (String × Int)),
      a.track_element = some eid →
      c.elements.find? (fun e => e.id == eid) = some el →
      TrackElementChildPropertyTracker.getPropChangedFromTrackElement w eid = some pc →
      ∃ a1, TrackElementAdded.undo a c ignore w = some (a1, clip_remove c eid) ∧
        a1.track_element = none ∧ a1.props_changed = pc ∧ a1.asset = a.asset ∧
        (clip_remove c eid).elements = c.elements.filter (fun e => e.id ≠ eid) ∧
        (∀ p ∈ list_children_properties el, p.writable = true → p.name ∉ ignore →
          (child_property_name p, (get_child_property el (child_property_name p)).2)
            ∈ a1.track_element_props) ∧
        (∀ kv ∈ a1.track_element_props, ∃ p, p ∈ list_children_properties el ∧
          p.writable = true ∧ p.name ∉ ignore ∧
          kv = (child_property_name p, (get_child_property el (child_property_name p)).2))) ∧
    (∀ (a : TrackElementAdded) (c : Clip) (fresh : Nat),
      ∃ e, (TrackElementAdded.do_ a c fresh).2.elements = c.elements ++ [e] ∧
        e.id = fresh ∧ e.asset = a.asset ∧
        e.props = applyProps (elemDefaults a.asset) a.track_element_props ∧
        (TrackElementAdded.do_ a c fresh).1.track_element = some fresh) ∧
    (∀ (a : TrackElementRemoved) (c : Clip) (ignore : List String)
      (w : TrackElementChildPropertyTracker) (eid : Nat) (el : TrackElement)
      (pc : List (String × Int)),
      a.track_element = some eid →
      c.elements.find? (fun e => e.id == eid) = some el →
      TrackElementChildPropertyTracker.getPropChangedFromTrackElement w eid = some pc →
      ∃ a1, TrackElementRemoved.do_ a c ignore w = some (a1, clip_remove c eid) ∧
        a1.track_element = none ∧ a1.props_changed = pc ∧ a1.asset = a.asset ∧
        (clip_remove c eid).elements = c.elements.filter (fun e => e.id ≠ eid) ∧
        (∀ p ∈ list_children_properties el, p.writable = true → p.name ∉ ignore →
          (child_property_name p, (get_child_property el (child_property_name p)).2)
            ∈ a1.track_element_props) ∧
        (∀ kv ∈ a1.track_element_props, ∃ p, p ∈ list_children_properties el ∧
          p.writable = true ∧ p.name ∉ ignore ∧
          kv = (child_property_name p, (get_child_property el (child_property_name p)).2))) ∧
    (∀ (a : TrackElementRemoved) (c : Clip) (fresh : Nat),
      ∃ e, (TrackElementRemoved.undo a c fresh).2.elements = c.elements ++ [e] ∧
        e.id = fresh ∧ e.asset = a.asset ∧
        e.props = applyProps (elemDefaults a.asset) a.track_element_props ∧
        (TrackElementRemoved.undo a c fresh).1.track_element = some fresh) := by
  have hcapture : ∀ (ignore : List String) (el : TrackElement),
      (∀ p ∈ list_children_properties el, p.writable = true → p.name ∉ ignore →
        (child_property_name p, (get_child_property el (child_property_name p)).2)
          ∈ pspecSelect (fun p => p.writable && decide (p.name ∉ ignore)) el) ∧
      (∀ kv ∈ pspecSelect (fun p => p.writable && decide (p.name ∉ ignore)) el,
        ∃ p, p ∈ list_children_properties el ∧ p.writable = true ∧ p.name ∉ ignore ∧
          kv = (child_property_name p, (get_child_property el (child_property_name p)).2)) := by
    intro ignore el
    constructor
    · intro p hp hw hpi
      exact (pspecSelect_mem_iff _ el _).2 ⟨p, hp, by simp [hw, hpi], rfl⟩
    · intro kv hkv
      obtain ⟨p, hp, hkeep, he⟩ := (pspecSelect_mem_iff _ el kv).1 hkv
      simp only [Bool.and_eq_true, decide_eq_true_eq] at hkeep
      exact ⟨p, hp, hkeep.1, hkeep.2, he⟩
  refine ⟨?_, ?_, ?_, ?_⟩
  · intro a c ignore w eid el pc ha hfind hpc
    refine ⟨_, trackElementAdded_undo_eq a c ignore w eid el pc ha hfind hpc, rfl, rfl, rfl,
      rfl, (hcapture ignore el).1, (hcapture ignore el).2⟩
  · intro a c fresh
    refine ⟨setChildProps (freshElem a.asset fresh) a.track_element_props, rfl, ?_, ?_, ?_, rfl⟩
    · rw [setChildProps_eq]
      rfl
    · rw [setChildProps_eq]
      rfl
    · rw [setChildProps_eq]
      rfl
  · intro a c ignore w eid el pc ha hfind hpc
    refine ⟨_, trackElementRemoved_do_eq a c ignore w eid el pc ha hfind hpc, rfl, rfl, rfl,
      rfl, (hcapture ignore el).1, (hcapture ignore el).2⟩
  · intro a c fresh
    refine ⟨setChildProps (freshElem a.asset fresh) a.track_element_props, rfl, ?_, ?_, ?_, rfl⟩
    · rw [setChildProps_eq]
      rfl
    · rw [setChildProps_eq]
      rfl
    · rw [setChildProps_eq]
      rfl

/-- Witness for C5: all four parts applied at a concrete effect element inside a
concrete clip, with the watcher holding its pending property-change snapshot. -/
theorem c5_track_element_add_remove_policy_witness :
    (∃ a1, TrackElementAdded.undo (TrackElementAdded.init wElem) wClip wIgnore wWatcher
        = some (a1, clip_remove wClip 1) ∧
      a1.track_element = none ∧ a1.props_changed = [("GstVolume::volume", 10)] ∧
      a1.asset = (TrackElementAdded.init wElem).asset ∧
      (clip_remove wClip 1).elements = wClip.elements.filter (fun e => e.id ≠ 1) ∧
      (∀ p ∈ list_children_properties wElem, p.writable = true → p.name ∉ wIgnore →
        (child_property_name p, (get_child_property wElem (child_property_name p)).2)
          ∈ a1.track_element_props) ∧
      (∀ kv ∈ a1.track_element_props, ∃ p, p ∈ list_children_properties wElem ∧
        p.writable = true ∧ p.name ∉ wIgnore ∧
        kv = (child_property_name p, (get_child_property wElem (child_property_name p)).2))) ∧
    (∃ e, (TrackElementAdded.do_ (TrackElementAdded.init wElem) wClip 7).2.elements
        = wClip.elements ++ [e] ∧
      e.id = 7 ∧ e.asset = (TrackElementAdded.init wElem).asset ∧
      e.props = applyProps (elemDefaults (TrackElementAdded.init wElem).asset)
        (TrackElementAdded.init wElem).track_element_props ∧
      (TrackElementAdded.do_ (TrackElementAdded.init wElem) wClip 7).1.track_element
        = some 7) ∧
    (∃ a1, TrackElementRemoved.do_ (TrackElementRemoved.init wElem) wClip wIgnore wWatcher
        = some (a1, clip_remove wClip 1) ∧
      a1.track_element = none ∧ a1.props_changed = [("GstVolume::volume", 10)] ∧
      a1.asset = (TrackElementRemoved.init wElem).asset ∧
      (clip_remove wClip 1).elements = wClip.elements.filter (fun e => e.id ≠ 1) ∧
      (∀ p ∈ list_children_properties wElem, p.writable = true → p.name ∉ wIgnore →
        (child_property_name p, (get_child_property wElem (child_property_name p)).2)
          ∈ a1.track_element_props) ∧
      (∀ kv ∈ a1.track_element_props, ∃ p, p ∈ list_children_properties wElem ∧
        p.writable = true ∧ p.name ∉ wIgnore ∧
        kv = (child_property_name p, (get_child_property wElem (child_property_name p)).2))) ∧
    (∃ e, (TrackElementRemoved.undo (TrackElementRemoved.init wElem) wClip 7).2.elements
        = wClip.elements ++ [e] ∧
      e.id = 7 ∧ e.asset = (TrackElementRemoved.init wElem).asset ∧
      e.props = applyProps (elemDefaults (TrackElementRemoved.init wElem).asset)
        (TrackElementRemoved.init wElem).track_element_props ∧
      (TrackElementRemoved.undo (TrackElementRemoved.init wElem) wClip 7).1.track_element
        = some 7) :=
  ⟨c5_track_element_add_remove_policy.1 (TrackElementAdded.init wElem) wClip wIgnore
     wWatcher 1 wElem [("GstVolume::volume", 10)] (by decide) (by decide) (by decide),
   c5_track_element_add_remove_policy.2.1 (TrackElementAdded.init wElem) wClip 7,
   c5_track_element_add_remove_policy.2.2.1 (TrackElementRemoved.init wElem) wClip wIgnore
     wWatcher 1 wElem [("GstVolume::volume", 10)] (by decide) (by decide) (by decide),
   c5_track_element_add_remove_policy.2.2.2 (TrackElementRemoved.init wElem) wClip 7⟩

/-- Counterexample for C6: the claim says LayerAdded forces a structural
commit, but LayerAdded.do issues no commit request at all — on a concrete
timeline the commit-request counter is unchanged after LayerAdded.do. -/
theorem c6_counterexample_layerAdded_do_no_commit :
    ((LayerAdded.do_ ⟨⟨4, 1, false, []⟩, AStatus.pending⟩ wTimeline).2).commits
      = wTimeline.commits := rfl

/-- C6 (amended): LayerMoved.do/undo change only the referenced layer's
priority integer (do writes the new priority, undo the old) and request no
structural commit; LayerAdded/LayerRemoved mutate the timeline's layer set, and
a structural commit is forced exactly by the layer-removing directions
(LayerRemoved.do and LayerAdded.undo) — LayerAdded.do and LayerRemoved.undo
add the layer without a commit. -/
theorem c6_layer_actions_effects :
    (∀ (a : LayerMoved) (tl : Timeline),
      (LayerMoved.do_ a tl).2.commits = tl.commits ∧
      (LayerMoved.undo a tl).2.commits = tl.commits ∧
      List.Forall₂ (fun l l2 => l2.id = l.id ∧ l2.auto_transition = l.auto_transition ∧
          l2.clips = l.clips ∧
          l2.priority = (if l.id = a.ges_layer then a.priority else l.priority))
        tl.layers (LayerMoved.do_ a tl).2.layers ∧
      List.Forall₂ (fun l l2 => l2.id = l.id ∧ l2.auto_transition = l.auto_transition ∧
          l2.clips = l.clips ∧
          l2.priority = (if l.id = a.ges_layer then a.old_priority else l.priority))
        tl.layers (LayerMoved.undo a tl).2.layers) ∧
    (∀ (a : LayerAdded) (tl : Timeline),
      (LayerAdded.do_ a tl).2 = { tl with layers := tl.layers ++ [a.ges_layer] } ∧
      (LayerAdded.undo a tl).2 = { tl with
          layers := tl.layers.filter (fun l => l.id ≠ a.ges_layer.id),
          commits := tl.commits + 1 }) ∧
    (∀ (a : LayerRemoved) (tl : Timeline),
      (LayerRemoved.do_ a tl).2 = { tl with
          layers := tl.layers.filter (fun l => l.id ≠ a.ges_layer.id),
          commits := tl.commits + 1 } ∧
      (LayerRemoved.undo a tl).2 = { tl with layers := tl.layers ++ [a.ges_layer] }) := by
  refine ⟨?_, fun a tl => ⟨rfl, rfl⟩, fun a tl => ⟨rfl, rfl⟩⟩
  intro a tl
  refine ⟨rfl, rfl, ?_, ?_⟩
  · simp only [LayerMoved.do_]
    rw [List.forall₂_map_right_iff, List.forall₂_same]
    intro l _
    by_cases h : l.id = a.ges_layer <;> simp [h]
  · simp only [LayerMoved.undo]
    rw [List.forall₂_map_right_iff, List.forall₂_same]
    intro l _
    by_cases h : l.id = a.ges_layer <;> simp [h]

/-- Counterexample for C7: detaching a concrete KeyframeChangeTracker leaves
the keyframe snapshot cache intact and the value-added and value-removed
subscriptions connected — only value-changed is disconnected — and a
value-added notification arriving after the detach still mutates the cache. -/
theorem c7_detach_counterexample :
    KeyframeChangeTracker.disconnectFromObject
        ⟨some 5, some [(0, (0, 3))], true, true, true, true⟩
      = Except.ok ⟨none, some [(0, (0, 3))], true, true, false, true⟩ ∧
    (⟨none, some [(0, (0, 3))], true, true, false, true⟩
      : KeyframeChangeTracker).subsValueAdded = true ∧
    (⟨none, some [(0, (0, 3))], true, true, false, true⟩
      : KeyframeChangeTracker).subsValueRemoved = true ∧
    (⟨none, some [(0, (0, 3))], true, true, false, true⟩
      : KeyframeChangeTracker).keyframes = some [(0, (0, 3))] ∧
    KeyframeChangeTracker.keyframeAddedCb
        ⟨none, some [(0, (0, 3))], true, true, false, true⟩ (4, 9)
      = Except.ok ⟨none, some [(0, (0, 3)), (4, (4, 9))], true, true, false, true⟩ :=
  ⟨rfl, rfl, rfl, rfl, rfl⟩

/-- C7 (amended): disconnectFromObject drops the control-source reference and
removes exactly the value-changed subscription; every other field — the
keyframe snapshot cache and the value-added/value-removed subscriptions —
is left unchanged. -/
theorem c7_detach_behaviour (tr : KeyframeChangeTracker)
    (h : tr.subsValueChanged = true) :
    KeyframeChangeTracker.disconnectFromObject tr
      = Except.ok { tr with control_source := none, subsValueChanged := false } := by
  unfold KeyframeChangeTracker.disconnectFromObject
  simp [h]

/-- Witness for C7's amended statement at a concrete connected tracker. -/
theorem c7_detach_behaviour_witness :
    KeyframeChangeTracker.disconnectFromObject ⟨some 5, some [], true, true, true, false⟩
      = Except.ok { (⟨some 5, some [], true, true, true, false⟩ : KeyframeChangeTracker) with
          control_source := none, subsValueChanged := false } :=
  c7_detach_behaviour ⟨some 5, some [], true, true, true, false⟩ (by decide)

theorem altUndoDo_pair : ∀ (n : Nat) (x : ActivePropertyChanged) (e : Bool),
    altUndoDo (n + 1) (x, e)
      = ({ active := x.active, status := AStatus.done }, !x.active) := by
  intro n
  induction n with
  | zero =>
    intro x e
    show altUndoDo 0 _ = _
    simp [altUndoDo, ActivePropertyChanged.undo, ActivePropertyChanged.do_]
  | succ n ih =>
    intro x e
    have step : altUndoDo (n + 1 + 1) (x, e)
        = altUndoDo (n + 1) ({ active := !!x.active, status := AStatus.done }, !x.active) :=
      rfl
    rw [step, ih]
    simp

/-- C8: ActivePropertyChanged constructed with the new boolean a stores its
negation (the prior value); when calls strictly alternate starting from
construction, undo() writes the old value (not a) to the element's active flag
and do()/redo() writes the new value a back, and any number of undo/do rounds
returns the stored flag to its post-construction value while leaving the
element at a; two consecutive do() calls without an intervening undo() toggle
twice — the second do writes the opposite of what the first wrote. -/
theorem c8_active_toggle :
    (∀ active : Bool, (trackElementActiveChangedCb active).active = !active) ∧
    (∀ active : Bool, (ActivePropertyChanged.init active).active = !active) ∧
    (∀ (active e : Bool),
      (ActivePropertyChanged.undo (ActivePropertyChanged.init active) e).2 = !active ∧
      (ActivePropertyChanged.do_
        (ActivePropertyChanged.undo (ActivePropertyChanged.init active) e).1
        (ActivePropertyChanged.undo (ActivePropertyChanged.init active) e).2).2 = active) ∧
    (∀ (n : Nat) (active e : Bool),
      altUndoDo (n + 1) (ActivePropertyChanged.init active, e)
        = ({ active := !active, status := AStatus.done }, active)) ∧
    (∀ (a : ActivePropertyChanged) (e : Bool),
      (ActivePropertyChanged.do_ (ActivePropertyChanged.do_ a e).1
        (ActivePropertyChanged.do_ a e).2).2
      = !((ActivePropertyChanged.do_ a e).2)) := by
  refine ⟨fun _ => rfl, fun _ => rfl, ?_, ?_, ?_⟩
  · intro active e
    constructor
    · rfl
    · simp [ActivePropertyChanged.init, ActivePropertyChanged.undo,
            ActivePropertyChanged.do_]
  · intro n active e
    rw [altUndoDo_pair]
    simp [ActivePropertyChanged.init]
  · intro a e
    simp [ActivePropertyChanged.do_]

/-- C9: disconnecting observation that is already torn down does not raise —
with the observer's two callbacks already disconnected from the control source
and the tracker already removed from the tracker map, a second
_disconnectFromControlSource completes normally, only logging a debug line. -/
theorem c9_disconnect_idempotent (st : TimelineObserverCS) (cs : Nat)
    (h1 : cs ∉ st.cs_value_added_subs)
    (h2 : assocGet st.control_source_keyframe_trackers cs = none) :
    disconnectFromControlSource st cs
      = Except.ok { st with debugCount := st.debugCount + 1 } := by
  unfold disconnectFromControlSource
  rw [if_neg h1]
  dsimp only
  rw [assocPop_eq_none _ _ h2]

/-- Witness for C9 at a concrete observer state already torn down for control
source 5. -/
theorem c9_disconnect_idempotent_witness :
    disconnectFromControlSource ⟨[], [3], [], 0⟩ 5
      = Except.ok { (⟨[], [3], [], 0⟩ : TimelineObserverCS) with debugCount := 0 + 1 } :=
  c9_disconnect_idempotent ⟨[], [3], [], 0⟩ 5 (by decide) (by decide)

/-- C10: addTrackElement called with an already-tracked element returns
immediately — the tracker, its snapshots and its subscription lists are all
left exactly as they were, so no duplicate deep-notify subscription and no
duplicate actions can result from double registration. -/
theorem c10_addTrackElement_idempotent
    (tr : TrackElementChildPropertyTracker) (ignore : List String) (el : TrackElement)
    (h : (assocGet tr.tracked_track_elements el.id).isSome) :
    TrackElementChildPropertyTracker.addTrackElement tr ignore el = tr := by
  unfold TrackElementChildPropertyTracker.addTrackElement
  rw [if_pos h]

/-- Witness for C10: registering the already-tracked sample element changes
nothing. -/
theorem c10_addTrackElement_idempotent_witness :
    TrackElementChildPropertyTracker.addTrackElement wWatcher wIgnore wElem = wWatcher :=
  c10_addTrackElement_idempotent wWatcher wIgnore wElem (by decide)

end PitiviUndoTimeline
